import Mathlib

/-!
Verification development for the DRAGEN mapping-metrics module
(`multiqc/modules/dragen/mapping_metrics.py`).

The Python module is shallowly embedded: ordered dictionaries become
association lists processed front to back, Python numbers become `Int` and
exact `Rat` values (floating-point rounding is not modelled; all arithmetic
in the module is on values that the claims treat symbolically), and code
that can raise (`KeyError`, `TypeError`, `IndexError`, `ValueError`) is
embedded as `Option`/`Except` valued functions, where `none`/`.error`
corresponds to the Python exception aborting the run.
-/

namespace DragenMapping

/-- A parsed metric value: Python `int`, Python `float` (modelled as an exact
rational), or a leftover string such as the literal `NA` marker. -/
inductive MetricValue where
  | i : Int → MetricValue
  | f : Rat → MetricValue
  | s : String → MetricValue
deriving DecidableEq, Repr

/-- A Python dict from metric identifier to value, in insertion order. -/
abbrev Record := List (String × MetricValue)

/-- Per-read-group (or per-phenotype, or per-sample) table: an ordered dict
of `Record`s keyed by entity name. -/
abbrev RecordMap := List (String × Record)

/-- Python `d[k] = v` on an insertion-ordered dict: an existing key keeps its
position and gets the new value, a fresh key is appended at the end. -/
def dictInsert {β : Type} : List (String × β) → String → β → List (String × β)
  | [], k, v => [(k, v)]
  | p :: rest, k, v => if p.1 = k then (k, v) :: rest else p :: dictInsert rest k v

/-- Python `d.get(k)` / `d[k]` lookup (the caller decides whether a `none`
is a `KeyError`). -/
def dictGet {β : Type} : List (String × β) → String → Option β
  | [], _ => none
  | p :: rest, k => if p.1 = k then some p.2 else dictGet rest k

/-- Python `k in d`. -/
def dictContains {β : Type} (d : List (String × β)) (k : String) : Bool :=
  (dictGet d k).isSome

/-- Python `del d[k]` once the key is known to be present (the entry with the
key is removed; other entries keep their order). -/
def eraseKey : Record → String → Record
  | [], _ => []
  | p :: rest, k => if p.1 = k then eraseKey rest k else p :: eraseKey rest k

/-- Python `==` between parsed metric values: numbers compare by value across
`int`/`float`, strings compare as strings, and a number never equals a
string. -/
def pyEq : MetricValue → MetricValue → Bool
  | .i a, .i b => a = b
  | .i a, .f q => (a : Rat) = q
  | .f q, .i a => q = (a : Rat)
  | .f a, .f b => a = b
  | .s a, .s b => a = b
  | _, _ => false

/-- Python `+` on parsed metric values: number addition, string
concatenation, and `none` for a mixed string/number `TypeError`. -/
def pyAdd : MetricValue → MetricValue → Option MetricValue
  | .i a, .i b => some (.i (a + b))
  | .i a, .f b => some (.f ((a : Rat) + b))
  | .f a, .i b => some (.f (a + (b : Rat)))
  | .f a, .f b => some (.f (a + b))
  | .s a, .s b => some (.s (a ++ b))
  | _, _ => none

/-- Numeric view of a value; `none` for strings. -/
def mvToRat : MetricValue → Option Rat
  | .i a => some (a : Rat)
  | .f q => some q
  | .s _ => none

/-- Python `v > 0`; `none` models the `TypeError` raised when `v` is a
string (such as the `NA` marker). -/
def pyGtZero : MetricValue → Option Bool
  | .i a => some (decide (0 < a))
  | .f q => some (decide (0 < q))
  | .s _ => none

/-- Python `a / b * 100.0` on metric values; `none` models the `TypeError`
on a string operand. -/
def pyDivTimes100 (a b : MetricValue) : Option Rat := do
  let x ← mvToRat a
  let y ← mvToRat b
  pure (x / y * 100)

/-- Deduplication of a value list under Python `==`, keeping first
occurrences: the carrier of Python `set(...)` built from the list. -/
def pyDedup (l : List MetricValue) : List MetricValue :=
  l.foldl (fun acc v => if acc.any (fun w => pyEq w v) then acc else acc ++ [v]) []

/-- The characters stripped by Python number constructors before parsing. -/
def isSpaceChar (c : Char) : Bool :=
  c = ' ' || c = '\t' || c = '\n' || c = '\r' || c = '\x0b' || c = '\x0c'

/-- Strip leading and trailing whitespace from a character list. -/
def dropWhitespace (cs : List Char) : List Char :=
  ((cs.dropWhile isSpaceChar).reverse.dropWhile isSpaceChar).reverse

/-- Value of a decimal digit string (most significant digit first). -/
def decDigitsVal (cs : List Char) : Nat :=
  cs.foldl (fun a c => 10 * a + (c.toNat - 48)) 0

/-- Core of Python `int(str)` after whitespace stripping: an optional sign
followed by a nonempty run of decimal digits. (Underscore separators and
non-ASCII digits accepted by CPython are not modelled; they do not occur in
this input format.) -/
def pyIntCore (cs : List Char) : Option Int :=
  match cs with
  | [] => none
  | c :: rest =>
    if c = '+' then
      if rest ≠ [] && rest.all Char.isDigit then some (decDigitsVal rest) else none
    else if c = '-' then
      if rest ≠ [] && rest.all Char.isDigit then some (-(decDigitsVal rest : Int)) else none
    else if (c :: rest).all Char.isDigit then some (decDigitsVal (c :: rest)) else none

/-- Python `int(str)`: `ValueError` is `none`. -/
def pyParseInt (s : String) : Option Int :=
  pyIntCore (dropWhitespace s.toList)

/-- Split a character list at the first character satisfying `p`: returns
the part before it and, if found, the part after it. -/
def splitFirst : List Char → (Char → Bool) → List Char × Option (List Char)
  | [], _ => ([], none)
  | c :: cs, p =>
    if p c then ([], some cs)
    else
      let r := splitFirst cs p
      (c :: r.1, r.2)

/-- Mantissa of a Python float literal: `digits`, `digits.digits`,
`digits.` or `.digits`, with at least one digit overall. -/
def parseDecimalCore (cs : List Char) : Option Rat :=
  let (ip, fp?) := splitFirst cs (fun c => c = '.')
  match fp? with
  | none =>
    if ip ≠ [] && ip.all Char.isDigit then some ((decDigitsVal ip : Int) : Rat) else none
  | some fp =>
    if (ip ≠ [] || fp ≠ []) && ip.all Char.isDigit && fp.all Char.isDigit then
      some ((decDigitsVal ip : Rat) + (decDigitsVal fp : Rat) / (10 : Rat) ^ fp.length)
    else none

/-- Exponent of a Python float literal: optional sign, nonempty digits. -/
def pyParseExp (cs : List Char) : Option Int :=
  match cs with
  | [] => none
  | c :: rest =>
    if c = '+' then
      if rest ≠ [] && rest.all Char.isDigit then some (decDigitsVal rest) else none
    else if c = '-' then
      if rest ≠ [] && rest.all Char.isDigit then some (-(decDigitsVal rest : Int)) else none
    else if (c :: rest).all Char.isDigit then some (decDigitsVal (c :: rest)) else none

/-- Core of Python `float(str)` after whitespace stripping.
(`inf`/`nan` spellings and underscore separators are not modelled; they do
not occur in this input format.) -/
def pyFloatCore (cs : List Char) : Option Rat :=
  match cs with
  | [] => none
  | _ =>
    let sign : Rat × List Char :=
      match cs with
      | c :: rest =>
        if c = '+' then (1, rest) else if c = '-' then (-1, rest) else (1, cs)
      | [] => (1, cs)
    let (mant, ex?) := splitFirst sign.2 (fun c => c = 'e' || c = 'E')
    match ex? with
    | none => (parseDecimalCore mant).map (fun m => sign.1 * m)
    | some ecs => do
      let e ← pyParseExp ecs
      let m ← parseDecimalCore mant
      pure (sign.1 * m * (10 : Rat) ^ e)

/-- Python `float(str)`: `ValueError` is `none`. -/
def pyParseFloat (s : String) : Option Rat :=
  pyFloatCore (dropWhitespace s.toList)

/-- VALUE coercion of `parse_mapping_metrics_file` (lines 306-312): try
`int(value)`, then `float(value)`, else keep the raw string. -/
def coerceValue (s : String) : MetricValue :=
  match pyParseInt s with
  | some n => .i n
  | none =>
    match pyParseFloat s with
    | some q => .f q
    | none => .s s

/-- PERCENTAGE coercion (lines 315-320): try `float`, else keep the string. -/
def coercePct (s : String) : MetricValue :=
  match pyParseFloat s with
  | some q => .f q
  | none => .s s

/-- Decidable equality of embedded fallible results, used to evaluate the
embedding on concrete inputs. -/
instance {ε α : Type} [DecidableEq ε] [DecidableEq α] : DecidableEq (Except ε α) :=
  fun x y =>
    match x, y with
    | .error a, .error b =>
      if h : a = b then .isTrue (by rw [h])
      else .isFalse (by intro hh; injection hh with hh; exact h hh)
    | .ok a, .ok b =>
      if h : a = b then .isTrue (by rw [h])
      else .isFalse (by intro hh; injection hh with hh; exact h hh)
    | .error _, .ok _ => .isFalse (by intro hh; exact Except.noConfusion hh)
    | .ok _, .error _ => .isFalse (by intro hh; exact Except.noConfusion hh)

/-- Metric identifiers used by the post-parse fixups (lines 336-352). -/
def kDup : String := "Number of duplicate marked reads"

/-- Identifier of the duplicate-marked-and-mate-removed count. -/
def kDupMate : String := "Number of duplicate marked and mate reads removed"

/-- Identifier of the unique-read count. -/
def kUniq : String := "Number of unique reads (excl. duplicate marked reads)"

/-- Identifier of the mapped-read count. -/
def kMapped : String := "Mapped reads"

/-- Identifier of the total-alignment count. -/
def kTotAlign : String := "Total alignments"

/-- Identifier of the secondary-alignment count. -/
def kSecAlign : String := "Secondary alignments"

/-- Identifier of the derived secondary-alignment percentage. -/
def kSecPct : String := "Secondary alignments pct"

/-- Identifier of the total-base count. -/
def kTotBases : String := "Total bases"

/-- Identifier of the Q30-excluding-dups-and-clipped base count. -/
def kQ30Excl : String := "Q30 bases (excl. dups & clipped bases)"

/-- Identifier of the mapped-bases-R1 count. -/
def kMappedR1 : String := "Mapped bases R1"

/-- Identifier of the mapped-bases-R2 count. -/
def kMappedR2 : String := "Mapped bases R2"

/-- Identifier of the duplication-chart component metric. -/
def kUniqMapped : String := "Number of unique & mapped reads (excl. duplicate marked reads)"

/-- Identifier of the unmapped-read count. -/
def kUnmapped : String := "Unmapped reads"

/-- Identifier of the designated total of both chart projections. -/
def kTotalRG : String := "Total reads in RG"

/-- Identifier of the properly-paired count (pairing chart). -/
def kProperPaired : String := "Properly paired reads"

/-- Identifier of the discordant count (pairing chart). -/
def kDiscordant : String := "Not properly paired reads (discordant)"

/-- Identifier of the singleton count (pairing chart). -/
def kSingleton : String := "Singleton reads (itself mapped; mate unmapped)"

/-- Fixup line 339-340: an `NA` duplicate-marked count becomes `0`;
`KeyError` (missing key) is `.error` with the key, as in Python. -/
def fixDupNA (d : Record) : Except String Record :=
  match dictGet d kDup with
  | none => .error kDup
  | some v => .ok (if pyEq v (.s "NA") then dictInsert d kDup (.i 0) else d)

/-- Fixup line 341-342: an `NA` duplicate-marked-and-mate-removed count
becomes `0`. -/
def fixDupMateNA (d : Record) : Except String Record :=
  match dictGet d kDupMate with
  | none => .error kDupMate
  | some v => .ok (if pyEq v (.s "NA") then dictInsert d kDupMate (.i 0) else d)

/-- Fixup line 343-344: an `NA` unique-read count defaults to the record's
mapped-read count. -/
def fixUniqNA (d : Record) : Except String Record :=
  match dictGet d kUniq with
  | none => .error kUniq
  | some v =>
    if pyEq v (.s "NA") then
      match dictGet d kMapped with
      | none => .error kMapped
      | some mv => .ok (dictInsert d kUniq mv)
    else .ok d

/-- Fixup line 346-347: when total alignments are positive, add the derived
secondary-alignment percentage. -/
def addSecPct (d : Record) : Except String Record :=
  match dictGet d kTotAlign with
  | none => .error kTotAlign
  | some t =>
    match pyGtZero t with
    | none => .error "TypeError"
    | some false => .ok d
    | some true =>
      match dictGet d kSecAlign with
      | none => .error kSecAlign
      | some sv =>
        match pyDivTimes100 sv t with
        | none => .error "TypeError"
        | some q => .ok (dictInsert d kSecPct (.f q))

/-- Fixup line 349-352: when total bases are positive, add the three derived
base percentages, in source order. -/
def addBasePcts (d : Record) : Except String Record :=
  match dictGet d kTotBases with
  | none => .error kTotBases
  | some t =>
    match pyGtZero t with
    | none => .error "TypeError"
    | some false => .ok d
    | some true =>
      match dictGet d kQ30Excl with
      | none => .error kQ30Excl
      | some v1 =>
        match pyDivTimes100 v1 t with
        | none => .error "TypeError"
        | some q1 =>
          match dictGet (dictInsert d (kQ30Excl ++ " pct") (.f q1)) kMappedR1 with
          | none => .error kMappedR1
          | some v2 =>
            match pyDivTimes100 v2 t with
            | none => .error "TypeError"
            | some q2 =>
              match dictGet (dictInsert (dictInsert d (kQ30Excl ++ " pct") (.f q1))
                  (kMappedR1 ++ " pct") (.f q2)) kMappedR2 with
              | none => .error kMappedR2
              | some v3 =>
                match pyDivTimes100 v3 t with
                | none => .error "TypeError"
                | some q3 =>
                  .ok (dictInsert (dictInsert (dictInsert d (kQ30Excl ++ " pct") (.f q1))
                    (kMappedR1 ++ " pct") (.f q2)) (kMappedR2 ++ " pct") (.f q3))

/-- The whole post-parse fixup block (lines 336-352) applied to one
`MetricRecord`, statements in source order. -/
def fixupRecord (d : Record) : Except String Record := do
  let d ← fixDupNA d
  let d ← fixDupMateNA d
  let d ← fixUniqNA d
  let d ← addSecPct d
  addBasePcts d

/-- Split a character list at every occurrence of the separator; like
Python `str.split(sep)`, the empty input yields one empty field. -/
def splitChar (sep : Char) : List Char → List (List Char)
  | [] => [[]]
  | c :: rest =>
    match splitChar sep rest with
    | [] => [[c]]
    | h :: t => if c = sep then [] :: h :: t else (c :: h) :: t

/-- Python `s.split(sep)` for a one-character separator. -/
def pySplit (s : String) (sep : Char) : List String :=
  (splitChar sep s.toList).map String.mk

/-- Python `s.lower()` (ASCII case folding suffices for this format). -/
def pyLower (s : String) : String :=
  String.mk (s.toList.map Char.toLower)

/-- Python `l[i]`; `.error` models the `IndexError`. -/
def pyIdx {α : Type} (l : List α) (i : Nat) : Except String α :=
  match l[i]? with
  | some a => .ok a
  | none => .error "list index out of range"

/-- Processing of one CSV line (lines 300-334): split on commas, derive the
phenotype tag and analysis kind from the SECTION field, coerce VALUE and the
optional PERCENTAGE, and store into the per-phenotype or per-read-group
mapping as the analysis kind dictates. -/
def parseMetricsLine (maps : RecordMap × RecordMap) (line : String) :
    Except String (RecordMap × RecordMap) := do
  let fields := pySplit line ','
  let f0 ← pyIdx fields 0
  let phenotype := pyLower (((pySplit ((pySplit f0 '/').headD "") ' ').headD ""))
  let analysis ← pyIdx (pySplit f0 '/') 1
  let metric ← pyIdx fields 2
  let rawValue ← pyIdx fields 3
  let value := coerceValue rawValue
  let percentage : Option MetricValue :=
    match fields[4]? with
    | some p => some (coercePct p)
    | none => none
  let maps ←
    if analysis = "ALIGNING SUMMARY" then do
      let inner := (dictGet maps.2 phenotype).getD []
      let inner := dictInsert inner metric value
      let inner :=
        match percentage with
        | some p => dictInsert inner (metric ++ " pct") p
        | none => inner
      pure (maps.1, dictInsert maps.2 phenotype inner)
    else pure maps
  if analysis = "ALIGNING PER RG" then do
    let readgroup ← pyIdx fields 1
    let inner := (dictGet maps.1 readgroup).getD []
    let inner := dictInsert inner metric value
    let inner :=
      match percentage with
      | some p => dictInsert inner (metric ++ " pct") p
      | none => inner
    pure (dictInsert maps.1 readgroup inner, maps.2)
  else pure maps

/-- `parse_mapping_metrics_file` (lines 168-354) on the document's lines:
build the per-read-group and per-phenotype mappings, then run the fixup
block over all read-group records followed by all phenotype records
(the `itertools.chain` order). An uncaught Python exception is `.error`. -/
def parse_mapping_metrics_file (lines : List String) :
    Except String (RecordMap × RecordMap) := do
  let maps ← lines.foldlM parseMetricsLine ([], [])
  let rgs ← maps.1.mapM (fun p => (fixupRecord p.2).map (fun r => (p.1, r)))
  let phs ← maps.2.mapM (fun p => (fixupRecord p.2).map (fun r => (p.1, r)))
  pure (rgs, phs)

/-- Lines 21-32: accumulate each document's per-read-group mapping under the
document name, a later document with the same name overwriting the earlier
one (logged, last-write-wins). -/
def buildRgBySample (docs : List (String × RecordMap)) : List (String × RecordMap) :=
  docs.foldl (fun acc d => dictInsert acc d.1 d.2) []

/-- Line 27: same accumulation for the per-phenotype mappings. -/
def buildPhenotypeBySample (docs : List (String × RecordMap)) : List (String × RecordMap) :=
  docs.foldl (fun acc d => dictInsert acc d.1 d.2) []

/-- Lines 45-47: the sample name synthesized for a phenotype record; only
the `normal` tag gets a suffix, every other tag keeps the document name. -/
def synthSampleName (sn phenotype : String) : String :=
  if phenotype = "normal" then sn ++ " normal" else sn

/-- Lines 42-48: flatten phenotype-tagged records into the per-sample
mapping keyed by synthesized sample names, later entries overwriting. -/
def flattenSamples (phBySample : List (String × RecordMap)) : RecordMap :=
  phBySample.foldl
    (fun acc sp =>
      sp.2.foldl (fun a pr => dictInsert a (synthSampleName sp.1 pr.1) pr.2) acc)
    []

/-- The last record among a document's non-`normal` phenotype entries,
in iteration order; `none` when there is no such entry. -/
def lastNonNormal (phs : RecordMap) : Option Record :=
  phs.foldl (fun acc pr => if pr.1 = "normal" then acc else some pr.2) none

/-- Lines 54-60: merge all read-group data across documents; a colliding
read-group id is renamed to `<id> (<document name>)` before insertion. -/
def mergeReadGroups (rgBySample : List (String × RecordMap)) : RecordMap :=
  rgBySample.foldl
    (fun acc sp =>
      sp.2.foldl
        (fun acc2 rgd =>
          let rg := if dictContains acc2 rgd.1 then rgd.1 ++ " (" ++ sp.1 ++ ")" else rgd.1
          dictInsert acc2 rg rgd.2)
        acc)
    []

/-- Lines 62-67: collect the union of observed metric names. The Python
loop iterates `for sn, data_by_rg in data_by_rg_by_sample.items()`, which
rebinds the local name `data_by_rg` that held the merged mapping. -/
def collectAllMetricNames (rgBySample : List (String × RecordMap)) : List String :=
  rgBySample.foldl
    (fun acc sp =>
      sp.2.foldl
        (fun a rgd => rgd.2.foldl (fun a2 kv => if kv.1 ∈ a2 then a2 else a2 ++ [kv.1]) a)
        acc)
    []

/-- The value of the local `data_by_rg` after lines 54-67, i.e. the mapping
actually passed to `__map_dup_read_chart`, `__map_pair_read_chart` and
`beeswarm.plot` (lines 74-83): the merged mapping of lines 55-60, rebound by
each iteration of the metric-name loop of line 64 to that iteration's
per-document mapping. -/
def chartsReadGroupData (rgBySample : List (String × RecordMap)) : RecordMap :=
  rgBySample.foldl (fun _acc sp => sp.2) (mergeReadGroups rgBySample)

/-- The process-wide report configuration values the module reads
(multipliers as exact rationals, labels as strings). -/
structure Config where
  read_count_multiplier : Rat
  read_count_pfx : String
  read_count_desc : String
  base_count_multiplier : Rat
  base_count_pfx : String
  base_count_desc : String
deriving DecidableEq, Repr

/-- Lines 357-360: the read-count format template chosen from the
configured multiplier, with the count prefix appended. -/
def read_format (cfg : Config) : String :=
  (if cfg.read_count_multiplier = 1 then "\x7b:,.0f\x7d" else "\x7b:,.1f\x7d")
    ++ "&nbsp;" ++ cfg.read_count_pfx

/-- Lines 362-367: the base-count format template chosen from the
configured multiplier, with the count prefix appended. -/
def base_format (cfg : Config) : String :=
  (if cfg.base_count_multiplier = 1 then "\x7b:,.0f\x7d"
   else if cfg.base_count_multiplier = 1 / 1000000000 then "\x7b:,.2f\x7d"
   else "\x7b:,.1f\x7d&nbsp;")
    ++ "&nbsp;" ++ cfg.base_count_pfx

/-- The `modify` column of `GENERAL_METRICS`: either absent (`None`) or the
base-count-multiplier lambda of line 445. -/
inductive GenModify where
  | noMod
  | baseCountMult
deriving DecidableEq, Repr

/-- One row of the `GENERAL_METRICS` table (lines 443-449). -/
structure GeneralMetric where
  id : String
  title : String
  fmt : String
  modify : GenModify
deriving DecidableEq, Repr

/-- The `GENERAL_METRICS` catalog (lines 443-449). -/
def GENERAL_METRICS (cfg : Config) : List GeneralMetric :=
  [ ⟨"Bases in reference genome", "Bases in ref. genome:", base_format cfg, .baseCountMult⟩,
    ⟨"Bases in target bed [% of genome]", "Bases in target bed:", "\x7b\x7d % of genome", .noMod⟩,
    ⟨"Provided sex chromosome ploidy", "Prov. sex chrom ploidy:", "\x7b\x7d", .noMod⟩,
    ⟨"DRAGEN mapping rate [mil. reads/second]", "DRAGEN mapping rate:",
      "\x7b:,.2f\x7d [mil. reads/second]", .noMod⟩ ]

/-- A promoted general metric appended to `config.report_header_info`
(line 161): the title, the format template it will be rendered with, and
the (possibly modified) value. -/
structure ReportHeaderFact where
  title : String
  fmt : String
  value : MetricValue
deriving DecidableEq, Repr

/-- Line 160: apply the metric's `modify` lambda to the shared value;
`none` models the `TypeError` of multiplying a string by a number. -/
def generalFactValue (cfg : Config) (m : GeneralMetric) (v : MetricValue) :
    Option MetricValue :=
  match m.modify with
  | .noMod => some v
  | .baseCountMult => (mvToRat v).map (fun q => .f (q * cfg.base_count_multiplier))

/-- Lines 163-165: `del data[metric]` over every sample, in order; `none`
models the `KeyError` raised at the first sample that lacks the key. -/
def delAll (mid : String) : RecordMap → Option RecordMap
  | [] => some []
  | p :: rest =>
    match dictGet p.2 mid with
    | none => none
    | some _ => (delAll mid rest).map (fun r => (p.1, eraseKey p.2 mid) :: r)

/-- The values a general metric takes across the samples that contain it,
in sample order (the `vals_by_sample.values()` of line 151; the grouping
pass of lines 143-148 is fused into this per-metric collection). -/
def collectVals (st : RecordMap) (mid : String) : List MetricValue :=
  st.filterMap (fun p => dictGet p.2 mid)

/-- The body of the per-metric loop of `maybe_add_general_metrics`
(lines 150-165): when the metric has exactly one distinct value across the
samples containing it, emit a header fact (unless the value is `NA`) and
delete the metric from every sample. -/
def processGeneralMetric (cfg : Config) (st : RecordMap) (m : GeneralMetric) :
    Option (RecordMap × List ReportHeaderFact) :=
  match pyDedup (collectVals st m.id) with
  | [v] =>
    let facts? : Option (List ReportHeaderFact) :=
      if pyEq v (.s "NA") then some []
      else (generalFactValue cfg m v).map (fun w => [⟨m.title, m.fmt, w⟩])
    match facts?, delAll m.id st with
    | some fs, some st' => some (st', fs)
    | _, _ => none
  | _ => some (st, [])

/-- `maybe_add_general_metrics` (lines 142-165): run the per-metric loop
over the catalog, threading the mutated per-sample mapping and accumulating
the emitted header facts in insertion order. -/
def maybe_add_general_metrics (cfg : Config) (st : RecordMap) :
    Option (RecordMap × List ReportHeaderFact) :=
  (GENERAL_METRICS cfg).foldlM
    (fun acc m => (processGeneralMetric cfg acc.1 m).map (fun r => (r.1, acc.2 ++ r.2)))
    (st, [])

/-- The warning of lines 92-93, recorded for an entity excluded from the
duplication chart. -/
def warnDup (sid : String) : String :=
  "sum of unique/duplicate/unmapped reads not matching total, " ++
    "skipping mapping/duplicates percentages plot for: " ++ sid

/-- The component sum of the duplication view (lines 89-91, left to right). -/
def dupSum (d : Record) : Option MetricValue := do
  let v1 ← dictGet d kUniqMapped
  let v2 ← dictGet d kDup
  let s12 ← pyAdd v1 v2
  let v3 ← dictGet d kUnmapped
  pyAdd s12 v3

/-- The reconciliation test of line 89-91: `sum != total`; `none` models a
`KeyError`/`TypeError` aborting the chart construction. -/
def dupMismatch (d : Record) : Option Bool := do
  let s ← dupSum d
  let t ← dictGet d kTotalRG
  pure (!(pyEq s t))

/-- The entity loop of `__map_dup_read_chart` (lines 87-95), with explicit
chart-data and warning accumulators. -/
def mapDupAux : RecordMap → RecordMap → List String → Option (RecordMap × List String)
  | [], chart, warns => some (chart, warns)
  | p :: rest, chart, warns =>
    match dupMismatch p.2 with
    | none => none
    | some true => mapDupAux rest chart (warns ++ [warnDup p.1])
    | some false => mapDupAux rest (chart ++ [p]) warns

/-- `__map_dup_read_chart` (lines 86-95): the chart data and the recorded
warnings; `none` when a record is missing a component metric or holds a
string where a number is needed. -/
def map_dup_read_chart (st : RecordMap) : Option (RecordMap × List String) :=
  mapDupAux st [] []

/-- The warning of lines 119-120, recorded for an entity excluded from the
pairing chart. -/
def warnPair (sid : String) : String :=
  "sum of unpaired/discordant/proppaired/unmapped reads not matching total, " ++
    "skipping mapping/paired percentages plot for: " ++ sid

/-- The component sum of the pairing view (lines 116-118, left to right). -/
def pairSum (d : Record) : Option MetricValue := do
  let v1 ← dictGet d kDiscordant
  let v2 ← dictGet d kProperPaired
  let s12 ← pyAdd v1 v2
  let v3 ← dictGet d kSingleton
  let s13 ← pyAdd s12 v3
  let v4 ← dictGet d kUnmapped
  pyAdd s13 v4

/-- The reconciliation test of lines 116-118. -/
def pairMismatch (d : Record) : Option Bool := do
  let s ← pairSum d
  let t ← dictGet d kTotalRG
  pure (!(pyEq s t))

/-- The entity loop of `__map_pair_read_chart` (lines 113-122). -/
def mapPairAux : RecordMap → RecordMap → List String → Option (RecordMap × List String)
  | [], chart, warns => some (chart, warns)
  | p :: rest, chart, warns =>
    match pairMismatch p.2 with
    | none => none
    | some true => mapPairAux rest chart (warns ++ [warnPair p.1])
    | some false => mapPairAux rest (chart ++ [p]) warns

/-- `__map_pair_read_chart` (lines 113-122). -/
def map_pair_read_chart (st : RecordMap) : Option (RecordMap × List String) :=
  mapPairAux st [] []

/-- One row of the `MAPPING_METRICS` catalog (lines 369-441): identifier,
display title, show-mode (`'#'`, `'%'` or `None`), unit class (`'reads'`,
`'bases'`, `'len'`, `'x'`, `'%'` or `None`), beeswarm eligibility and the
description template. -/
structure MetricDescriptor where
  id : String
  title : String
  showing : Option String
  unit : Option String
  beeswarm : Bool
  descr : String
deriving DecidableEq, Repr

/-- The two `modify` lambdas attachable to a column (lines 487 and 492). -/
inductive ModifyFun where
  | readCountMult
  | baseCountMult
deriving DecidableEq, Repr

/-- A column-metadata dict as assembled by `make_mapping_stats_headers`;
keys that a given column never receives stay `none`. -/
structure ColumnMeta where
  title : String
  description : String
  min : Rat
  max : Option Rat := none
  scale : Option String := none
  hidden : Option Bool := none
  suffix : Option String := none
  modify : Option ModifyFun := none
  shared_key : Option String := none
  format : Option String := none
deriving DecidableEq, Repr

/-- The `MAPPING_METRICS` catalog (lines 369-441), transcribed row by row.
Braces and apostrophes inside the source strings are written with character
escapes. -/
def MAPPING_METRICS : List MetricDescriptor :=
  [ ⟨"Total input reads", "Reads", some "#", some "reads", false,
      "Total number of input reads for this sample (or total number of reads in all input read groups combined), \x7b\x7d"⟩,
    ⟨"Total reads in RG", "Reads", none, some "reads", true,
      "Total number of reads in this RG, \x7b\x7d"⟩,
    ⟨"Reads with mate sequenced", "Reads with mate", none, some "reads", true,
      "Number of reads with a mate sequenced, \x7b\x7d"⟩,
    ⟨"Reads without mate sequenced", "Reads w/o mate", none, some "reads", false,
      "Number of reads without a mate sequenced, \x7b\x7d"⟩,
    ⟨"QC-failed reads", "QC-fail", none, some "reads", true,
      "Number of reads not passing platform/vendor quality checks (SAM flag 0x200), \x7b\x7d"⟩,
    ⟨"Mapped reads", "Map", some "%", some "reads", true,
      "Number of mapped reads, \x7b\x7d"⟩,
    ⟨"Mapped reads R1", "Map R1", none, some "reads", false,
      "Number of mapped reads R1, \x7b\x7d"⟩,
    ⟨"Mapped reads R2", "Map R2", none, some "reads", false,
      "Number of mapped reads R2, \x7b\x7d"⟩,
    ⟨"Reads with MAPQ [40:inf)", "MQ>=40", none, some "reads", true,
      "Number of reads with MAPQ [40:inf), \x7b\x7d"⟩,
    ⟨"Number of duplicate marked reads", "Dup", some "%", some "reads", false,
      "Number of duplicate marked reads as a result of the --enable-duplicatemarking option being used, \x7b\x7d"⟩,
    ⟨"Number of duplicate marked and mate reads removed", "Dup with mates removed", none, some "reads", false,
      "Number of reads marked as duplicates, along with any mate reads, that are removed when the --remove-duplicates option is used, \x7b\x7d"⟩,
    ⟨"Number of unique reads (excl. duplicate marked reads)", "Uniq", none, some "reads", true,
      "Number of unique reads (all reads minus duplicate marked reads), \x7b\x7d"⟩,
    ⟨"Number of unique & mapped reads (excl. duplicate marked reads)", "Uniq map", none, some "reads", true,
      "Number of unique & mapped reads (mapped reads minus duplicate marked reads), \x7b\x7d"⟩,
    ⟨"Unmapped reads", "Unmap", none, some "reads", false,
      "Number of unmapped reads, \x7b\x7d"⟩,
    ⟨"Paired reads (itself & mate mapped)", "Self & mate mapped", none, some "reads", true,
      "Number of reads mapped in pairs (itself & mate mapped), \x7b\x7d"⟩,
    ⟨"Properly paired reads", "Prop pair", some "%", some "reads", true,
      "Number of properly paired reads, \x7b\x7d (both reads in pair are mapped and fall within an acceptable range from each other based on the estimated insert length distribution)"⟩,
    ⟨"Not properly paired reads (discordant)", "Discord", none, some "reads", true,
      "Number of discordant reads: paired reads minus properly paired reads , \x7b\x7d"⟩,
    ⟨"Singleton reads (itself mapped; mate unmapped)", "Singleton", none, some "reads", true,
      "Number of singleton reads: itself mapped; mate unmapped, \x7b\x7d"⟩,
    ⟨"Paired reads mapped to different chromosomes", "Mate map to diff chrom", none, some "reads", true,
      "Number of paired reads with a mate mapped to a different chromosome, \x7b\x7d"⟩,
    ⟨"Paired reads mapped to different chromosomes (MAPQ>=10)", "Mate diff chrom, MQ>=10", none, some "reads", true,
      "Number of paired reads, mapped with MAPQ>=10 and with a mate mapped to a different chromosome, \x7b\x7d"⟩,
    ⟨"Reads with indel R1", "Reads with indel R1", none, some "reads", false,
      "Number of R1 reads containing at least 1 indel, \x7b\x7d"⟩,
    ⟨"Reads with indel R2", "Reads with indel R2", none, some "reads", false,
      "Number of R2 reads containing at least 1 indel, \x7b\x7d"⟩,
    ⟨"Total alignments", "Alignments", none, some "reads", true,
      "Total number of alignments with MQ > 0, \x7b\x7d"⟩,
    ⟨"Secondary alignments", "Second\x27ry", some "%", some "reads", true,
      "Number of secondary alignments, \x7b\x7d. Secondary alignment occurs when a given read could align reasonably well to more than one place. One of the possible reported alignments is termed \"primary\" and the others will be marked as \"secondary\"."⟩,
    ⟨"Supplementary (chimeric) alignments", "Suppl\x27ry", none, some "reads", true,
      "Number of supplementary (chimeric) alignments, \x7b\x7d. A chimeric read is split over multiple loci (possibly due to structural variants). One alignment is referred to as the representative alignment, the other are supplementary"⟩,
    ⟨"Estimated read length", "Read len", some "#", some "len", false,
      "Estimated read length. Total number of input bases divided by the number of reads"⟩,
    ⟨"Insert length: mean", "Avg IS", none, some "len", false,
      "Insert length: mean"⟩,
    ⟨"Insert length: median", "Med IS", some "#", some "len", false,
      "Insert length: median"⟩,
    ⟨"Insert length: standard deviation", "IS std", none, some "len", false,
      "Insert length: standard deviation"⟩,
    ⟨"Average sequenced coverage over genome", "Cov", some "#", some "x", true,
      "Average sequenced coverage over genome"⟩,
    ⟨"Total bases", "Bases", some "#", some "bases", true,
      "Total number of bases sequenced, \x7b\x7d"⟩,
    ⟨"Total bases R1", "Bases R1", none, some "bases", false,
      "Total number of bases sequenced on R1 reads, \x7b\x7d"⟩,
    ⟨"Total bases R2", "Bases R2", none, some "bases", false,
      "Total number of bases sequenced on R2 reads, \x7b\x7d"⟩,
    ⟨"Mapped bases R1", "Mapped bases R1", none, some "bases", false,
      "Number of mapped bases on R1 reads, \x7b\x7d"⟩,
    ⟨"Mapped bases R2", "Mapped bases R2", none, some "bases", false,
      "Number of mapped bases on R2 reads, \x7b\x7d"⟩,
    ⟨"Soft-clipped bases R1", "Soft-clip bases R1", none, some "bases", false,
      "Number of soft-clipped bases on R1 reads, \x7b\x7d"⟩,
    ⟨"Soft-clipped bases R2", "Soft-clip bases R2", none, some "bases", false,
      "Number of soft-clipped bases on R2 reads, \x7b\x7d"⟩,
    ⟨"Mismatched bases R1", "MM bases R1", none, some "bases", false,
      "Number of mismatched bases on R1, \x7b\x7d, which is the sum of SNP count and indel lengths. It does not count anything within soft clipping, or RNA introns. It also does not count a mismatch if either the reference base or read base is N"⟩,
    ⟨"Mismatched bases R2", "MM bases R2", none, some "bases", false,
      "Number of mismatched bases on R2, \x7b\x7d, which is the sum of SNP count and indel lengths. It does not count anything within soft clipping, or RNA introns. It also does not count a mismatch if either the reference base or read base is N"⟩,
    ⟨"Mismatched bases R1 (excl. indels)", "MM bases R1 excl indels", none, some "bases", false,
      "Number of mismatched bases on R1, \x7b\x7d. The indels lengts are ignored. It does not count anything within soft clipping, or RNA introns. It also does not count a mismatch if either the reference base or read base is N"⟩,
    ⟨"Mismatched bases R2 (excl. indels)", "MM bases R2 excl indels", none, some "bases", false,
      "Number of mismatched bases on R2, \x7b\x7d. The indels lengts are ignored. It does not count anything within soft clipping, or RNA introns. It also does not count a mismatch if either the reference base or read base is N"⟩,
    ⟨"Q30 bases", "Q30", some "%", some "bases", true,
      "Number of bases with BQ >= 30, \x7b\x7d"⟩,
    ⟨"Q30 bases R1", "Q30 R1", none, some "bases", false,
      "Number of bases on R1 reads with BQ >= 30, \x7b\x7d"⟩,
    ⟨"Q30 bases R2", "Q30 R2", none, some "bases", false,
      "Number of bases on R2 reads with BQ >= 30, \x7b\x7d"⟩,
    ⟨"Q30 bases (excl. dups & clipped bases)", "Q30 excl dup & clipped", none, some "bases", true,
      "Number of non-clipped bases with BQ >= 30 on non-duplicate reads, \x7b\x7d"⟩,
    ⟨"Bases in reference genome", "Bases in ref. genome", some "#", some "bases", false,
      "Bases in reference genome"⟩,
    ⟨"Bases in target bed [% of genome]", "Bases in target bed", some "#", some "%", false,
      "Bases in target bed [% of genome]"⟩,
    ⟨"Provided sex chromosome ploidy", "Provided sex chrom ploidy", none, none, false,
      "Provided sex chromosome ploidy"⟩,
    ⟨"DRAGEN mapping rate [mil. reads/second]", "DRAGEN map rate", none, none, false,
      "DRAGEN mapping rate [mil. reads/second]"⟩ ]

/-- Lines 459-471: the base column dict with the unit-class colour scale. -/
def makeBaseCol (e : MetricDescriptor) : ColumnMeta :=
  let col : ColumnMeta := { title := e.title, description := e.descr, min := 0 }
  let col := if e.unit = some "reads" then { col with scale := some "RdYlGn" } else col
  let col := if e.unit = some "bases" then { col with scale := some "RdBu" } else col
  let col := if e.unit = some "len" then { col with scale := some "BrBG" } else col
  let col := if e.unit = some "x" then { col with scale := some "PiYG" } else col
  col

/-- Lines 475-481: the percentage-shadow column derived from the base
column when a `<id> pct` value was observed. -/
def makePctCol (col : ColumnMeta) (e : MetricDescriptor) : ColumnMeta :=
  { col with
      description := ((e.descr.replace ", \x7b\x7d" "").replace "Number of " "% of "),
      max := some 100,
      suffix := some "%",
      hidden := some (e.showing ≠ some "%") }

/-- Lines 484-503: finish the raw-count column with visibility and
unit-class formatting. -/
def finishCol (cfg : Config) (e : MetricDescriptor) (col : ColumnMeta) : ColumnMeta :=
  let col := { col with hidden := some (e.showing ≠ some "#") }
  let col :=
    if e.unit = some "reads" then
      { col with
          description := col.description.replace "\x7b\x7d" cfg.read_count_desc,
          modify := some .readCountMult,
          shared_key := some "read_count",
          format := some (read_format cfg) }
    else col
  let col :=
    if e.unit = some "bases" then
      { col with
          description := col.description.replace "\x7b\x7d" cfg.base_count_desc,
          modify := some .baseCountMult,
          shared_key := some "base_count",
          format := some (base_format cfg) }
    else col
  let col :=
    if e.unit = some "len" then
      { col with suffix := some " bp", format := some "\x7b:,.0f\x7d" }
    else col
  let col :=
    if e.unit = some "x" then
      { col with suffix := some " x", format := some "\x7b:,.1f\x7d" }
    else col
  let col :=
    if e.unit = some "%" then
      { col with suffix := some " %", format := some "\x7b:,.1f\x7d" }
    else col
  col

/-- Lines 507-512: the beeswarm suffix for a column. -/
def beesSfx (cfg : Config) (e : MetricDescriptor) : String :=
  let sfx := ""
  let sfx := if e.unit = some "reads" then " " ++ cfg.read_count_pfx else sfx
  let sfx := if e.unit = some "bases" then " " ++ cfg.base_count_pfx else sfx
  sfx

/-- The body of the catalog loop of `make_mapping_stats_headers`
(lines 458-515), acting on the `(stats_headers, beeswarm_keys)` pair. -/
def headersStep (cfg : Config) (metric_names : List String)
    (acc : List (String × ColumnMeta) × List (String × ColumnMeta))
    (e : MetricDescriptor) :
    List (String × ColumnMeta) × List (String × ColumnMeta) :=
  let col := makeBaseCol e
  let stats :=
    if (e.id ++ " pct") ∈ metric_names then
      dictInsert acc.1 (e.id ++ " pct") (makePctCol col e)
    else acc.1
  let col := finishCol cfg e col
  let stats := dictInsert stats e.id col
  let bees :=
    if e.beeswarm then dictInsert acc.2 e.id { col with suffix := some (beesSfx cfg e) }
    else acc.2
  (stats, bees)

/-- `make_mapping_stats_headers` (lines 451-517): build the general-stats
column metadata and the beeswarm key metadata from the set of observed
metric names. The observed set is passed as a list whose membership is what
matters. -/
def make_mapping_stats_headers (cfg : Config) (metric_names : List String) :
    List (String × ColumnMeta) × List (String × ColumnMeta) :=
  MAPPING_METRICS.foldl (headersStep cfg metric_names) ([], [])

/-- The catalog-ordered candidate key sequence of the stats headers: for
each catalog entry, its percentage shadow (when observed) followed by the
raw identifier. -/
def statsHeaderKeyOrder (metric_names : List String) : List String :=
  (MAPPING_METRICS.map
    (fun e => (if (e.id ++ " pct") ∈ metric_names then [e.id ++ " pct"] else []) ++ [e.id])).flatten

/-- The catalog-ordered candidate key sequence of the beeswarm keys. -/
def beeswarmKeyOrder : List String :=
  (MAPPING_METRICS.map (fun e => if e.beeswarm then [e.id] else [])).flatten

theorem dictGet_dictInsert_self {β : Type} (d : List (String × β)) (k : String) (v : β) :
    dictGet (dictInsert d k v) k = some v := by
  induction d with
  | nil => simp [dictInsert, dictGet]
  | cons p rest ih =>
    by_cases h : p.1 = k
    · simp [dictInsert, h, dictGet]
    · simp [dictInsert, h, dictGet, ih]

theorem dictGet_dictInsert_ne {β : Type} (d : List (String × β)) (k k' : String) (v : β)
    (h : k' ≠ k) : dictGet (dictInsert d k v) k' = dictGet d k' := by
  have h' : ¬(k = k') := by
    intro hh
    exact h hh.symm
  induction d with
  | nil => simp only [dictInsert, dictGet, if_neg h']
  | cons p rest ih =>
    simp only [dictInsert]
    by_cases hp : p.1 = k
    · rw [if_pos hp]
      have hp' : ¬(p.1 = k') := by
        rw [hp]
        exact h'
      simp only [dictGet, if_neg h', if_neg hp']
    · rw [if_neg hp]
      by_cases hp' : p.1 = k'
      · simp only [dictGet, if_pos hp']
      · simp only [dictGet, if_neg hp', ih]

theorem dictGet_eraseKey_self (d : Record) (k : String) :
    dictGet (eraseKey d k) k = none := by
  induction d with
  | nil => simp [eraseKey, dictGet]
  | cons p rest ih =>
    simp only [eraseKey]
    by_cases h : p.1 = k
    · rw [if_pos h]
      exact ih
    · rw [if_neg h]
      simp only [dictGet, if_neg h, ih]

theorem dictGet_eraseKey_ne (d : Record) (k k' : String) (h : k' ≠ k) :
    dictGet (eraseKey d k) k' = dictGet d k' := by
  induction d with
  | nil => simp [eraseKey]
  | cons p rest ih =>
    simp only [eraseKey]
    by_cases hp : p.1 = k
    · have hp' : ¬(p.1 = k') := by
        rw [hp]
        intro hh
        exact h hh.symm
      rw [if_pos hp]
      simp only [dictGet, if_neg hp', ih]
    · rw [if_neg hp]
      by_cases hp' : p.1 = k'
      · simp only [dictGet, if_pos hp']
      · simp only [dictGet, if_neg hp', ih]

/-- C1: the source intends the two chart projections and the beeswarm
dataset to read the merged per-read-group mapping (lines 54-60, comment
"merging all read group data"), but the metric-name loop of line 64 rebinds
the local `data_by_rg` to each document's own mapping, so the views receive
only the data of the last document: with two input documents, the first
document's read group `RG1` is in the merged mapping but not in the data
passed to the views. -/
theorem C1_charts_input_drops_first_document :
    chartsReadGroupData
        (buildRgBySample
          [("sampleA", [("RG1", [(kTotalRG, MetricValue.i 1)])]),
           ("sampleB", [("RG2", [(kTotalRG, MetricValue.i 2)])])])
      = [("RG2", [(kTotalRG, MetricValue.i 2)])]
    ∧ dictContains
        (mergeReadGroups
          (buildRgBySample
            [("sampleA", [("RG1", [(kTotalRG, MetricValue.i 1)])]),
             ("sampleB", [("RG2", [(kTotalRG, MetricValue.i 2)])])]))
        "RG1" = true
    ∧ dictContains
        (chartsReadGroupData
          (buildRgBySample
            [("sampleA", [("RG1", [(kTotalRG, MetricValue.i 1)])]),
             ("sampleB", [("RG2", [(kTotalRG, MetricValue.i 2)])])]))
        "RG1" = false := by
  refine ⟨?_, ?_, ?_⟩ <;> decide

/-- C5: two documents with distinct names that both contain read group
`RG1` merge into a mapping holding `RG1` with the first document's record
and `RG1 (<second document's name>)` with the second document's record;
neither record is overwritten. -/
theorem C5_readgroup_merge_disambiguation (s1 s2 : String) (d1 d2 : Record)
    (h : s1 ≠ s2) :
    mergeReadGroups (buildRgBySample [(s1, [("RG1", d1)]), (s2, [("RG1", d2)])])
        = [("RG1", d1), ("RG1 (" ++ s2 ++ ")", d2)]
    ∧ dictGet (mergeReadGroups (buildRgBySample [(s1, [("RG1", d1)]), (s2, [("RG1", d2)])]))
        "RG1" = some d1
    ∧ dictGet (mergeReadGroups (buildRgBySample [(s1, [("RG1", d1)]), (s2, [("RG1", d2)])]))
        ("RG1 (" ++ s2 ++ ")") = some d2 := by
  have hb : buildRgBySample [(s1, [("RG1", d1)]), (s2, [("RG1", d2)])]
      = [(s1, [("RG1", d1)]), (s2, [("RG1", d2)])] := by
    simp [buildRgBySample, dictInsert, h]
  have hne : ("RG1" : String) ≠ "RG1 (" ++ s2 ++ ")" := by
    intro hEq
    have hl := congrArg String.length hEq
    rw [String.length_append, String.length_append] at hl
    simp only [show ("RG1" : String).length = 3 from rfl,
      show ("RG1 (" : String).length = 5 from rfl,
      show (")" : String).length = 1 from rfl] at hl
    omega
  have hm : mergeReadGroups [(s1, [("RG1", d1)]), (s2, [("RG1", d2)])]
      = [("RG1", d1), ("RG1 (" ++ s2 ++ ")", d2)] := by
    simp [mergeReadGroups, dictContains, dictGet, dictInsert, hne]
  rw [hb, hm]
  refine ⟨rfl, ?_, ?_⟩
  · simp [dictGet]
  · simp [dictGet, hne]

theorem C5_readgroup_merge_disambiguation_witness :
    mergeReadGroups
        (buildRgBySample [("S1", [("RG1", [])]), ("S2", [("RG1", [("x", MetricValue.i 1)])])])
        = [("RG1", []), ("RG1 (" ++ "S2" ++ ")", [("x", MetricValue.i 1)])]
    ∧ dictGet
        (mergeReadGroups
          (buildRgBySample [("S1", [("RG1", [])]), ("S2", [("RG1", [("x", MetricValue.i 1)])])]))
        "RG1" = some []
    ∧ dictGet
        (mergeReadGroups
          (buildRgBySample [("S1", [("RG1", [])]), ("S2", [("RG1", [("x", MetricValue.i 1)])])]))
        ("RG1 (" ++ "S2" ++ ")") = some [("x", MetricValue.i 1)] :=
  C5_readgroup_merge_disambiguation "S1" "S2" [] [("x", MetricValue.i 1)] (by decide)

theorem flattenSamples_lookup_aux (sn : String) (phs : RecordMap) :
    ∀ acc : RecordMap,
      dictGet (phs.foldl (fun a pr => dictInsert a (synthSampleName sn pr.1) pr.2) acc) sn
        = phs.foldl (fun r pr => if pr.1 = "normal" then r else some pr.2) (dictGet acc sn) := by
  induction phs with
  | nil => intro acc; rfl
  | cons pr rest ih =>
    intro acc
    simp only [List.foldl_cons]
    rw [ih]
    congr 1
    by_cases h : pr.1 = "normal"
    · have hne : sn ≠ sn ++ " normal" := by
        intro hEq
        have hl := congrArg String.length hEq
        rw [String.length_append] at hl
        simp only [show (" normal" : String).length = 7 from rfl] at hl
        omega
      simp [h, synthSampleName, dictGet_dictInsert_ne _ _ _ _ hne]
    · simp [h, synthSampleName, dictGet_dictInsert_self]

/-- C10: during sample flattening every phenotype tag other than `normal`
maps to the document's base name unmodified, so all non-`normal` phenotype
records of one document land on the same sample name and the last-iterated
one survives: the merged entry at the document name is exactly the last
non-`normal` phenotype record. -/
theorem C10_nonnormal_phenotypes_collide (sn : String) (phs : RecordMap) (p : String)
    (hp : p ≠ "normal") :
    synthSampleName sn p = sn
    ∧ dictGet (flattenSamples [(sn, phs)]) sn = lastNonNormal phs := by
  constructor
  · simp [synthSampleName, hp]
  · have := flattenSamples_lookup_aux sn phs []
    simp only [flattenSamples, List.foldl_cons, List.foldl_nil]
    rw [this]
    rfl

theorem C10_nonnormal_phenotypes_collide_witness :
    synthSampleName "S" "tumor" = "S"
    ∧ dictGet
        (flattenSamples
          [("S", [("tumor", [("a", MetricValue.i 1)]), ("custom", [("b", MetricValue.i 2)])])])
        "S"
      = lastNonNormal [("tumor", [("a", MetricValue.i 1)]), ("custom", [("b", MetricValue.i 2)])] :=
  C10_nonnormal_phenotypes_collide "S"
    [("tumor", [("a", MetricValue.i 1)]), ("custom", [("b", MetricValue.i 2)])]
    "tumor" (by decide)

theorem dupMismatch_eq_some (d : Record) (b : Bool) :
    dupMismatch d = some b ↔
      ∃ sv tv, dupSum d = some sv ∧ dictGet d kTotalRG = some tv ∧ (!(pyEq sv tv)) = b := by
  unfold dupMismatch
  cases hs : dupSum d with
  | none => simp
  | some sv =>
    cases ht : dictGet d kTotalRG with
    | none => simp
    | some tv => simp

theorem mapDupAux_spec (st : RecordMap) :
    ∀ (chartAcc : RecordMap) (warnAcc : List String) (chart : RecordMap)
      (warns : List String),
      mapDupAux st chartAcc warnAcc = some (chart, warns) →
      chart = chartAcc ++ st.filter (fun p => decide (dupMismatch p.2 = some false))
      ∧ warns = warnAcc ++
          (st.filter (fun p => decide (dupMismatch p.2 = some true))).map (fun p => warnDup p.1)
      ∧ ∀ p ∈ st, (dupMismatch p.2).isSome := by
  induction st with
  | nil =>
    intro chartAcc warnAcc chart warns h
    simp only [mapDupAux, Option.some_inj] at h
    cases h
    simp
  | cons p rest ih =>
    intro chartAcc warnAcc chart warns h
    simp only [mapDupAux] at h
    cases hm : dupMismatch p.2 with
    | none => rw [hm] at h; exact absurd h (by simp)
    | some b =>
      rw [hm] at h
      cases b with
      | true =>
        have := ih chartAcc (warnAcc ++ [warnDup p.1]) chart warns h
        refine ⟨?_, ?_, ?_⟩
        · simpa [hm] using this.1
        · simp only [List.filter_cons, hm]
          simpa [List.append_assoc] using this.2.1
        · intro q hq
          rcases List.mem_cons.mp hq with hq | hq
          · rw [hq, hm]; rfl
          · exact this.2.2 q hq
      | false =>
        have := ih (chartAcc ++ [p]) warnAcc chart warns h
        refine ⟨?_, ?_, ?_⟩
        · simp only [List.filter_cons, hm]
          simpa [List.append_assoc] using this.1
        · simpa [hm] using this.2.1
        · intro q hq
          rcases List.mem_cons.mp hq with hq | hq
          · rw [hq, hm]; rfl
          · exact this.2.2 q hq

/-- C4: for every entity kept in the duplication view the component sum
equals the designated total exactly; every entity of the input that is
absent from the view fails that equality and has its warning recorded. -/
theorem C4_dup_chart_reconciliation (st chart : RecordMap) (warns : List String)
    (h : map_dup_read_chart st = some (chart, warns)) :
    (∀ p ∈ chart, ∃ sv tv, dupSum p.2 = some sv ∧ dictGet p.2 kTotalRG = some tv
        ∧ pyEq sv tv = true)
    ∧ (∀ p ∈ st, p.1 ∉ chart.map Prod.fst →
        (∃ sv tv, dupSum p.2 = some sv ∧ dictGet p.2 kTotalRG = some tv
          ∧ pyEq sv tv = false)
        ∧ warnDup p.1 ∈ warns) := by
  have spec := mapDupAux_spec st [] [] chart warns h
  have hchart : chart = st.filter (fun p => decide (dupMismatch p.2 = some false)) := by
    simpa using spec.1
  have hwarns :
      warns = (st.filter (fun p => decide (dupMismatch p.2 = some true))).map
        (fun p => warnDup p.1) := by
    simpa using spec.2.1
  constructor
  · intro p hp
    rw [hchart] at hp
    have hm : dupMismatch p.2 = some false := by
      have := List.of_mem_filter hp
      simpa using this
    rcases (dupMismatch_eq_some p.2 false).mp hm with ⟨sv, tv, h1, h2, h3⟩
    refine ⟨sv, tv, h1, h2, ?_⟩
    revert h3
    cases pyEq sv tv <;> simp
  · intro p hp hnotin
    have hsome := spec.2.2 p hp
    cases hb : dupMismatch p.2 with
    | none => rw [hb] at hsome; simp at hsome
    | some b =>
      cases b with
      | false =>
        exfalso
        apply hnotin
        rw [hchart]
        exact List.mem_map_of_mem Prod.fst (List.mem_filter.mpr ⟨hp, by simp [hb]⟩)
      | true =>
        rcases (dupMismatch_eq_some p.2 true).mp hb with ⟨sv, tv, h1, h2, h3⟩
        refine ⟨⟨sv, tv, h1, h2, ?_⟩, ?_⟩
        · revert h3
          cases pyEq sv tv <;> simp
        rw [hwarns]
        refine List.mem_map_of_mem (fun q => warnDup q.1) (List.mem_filter.mpr ⟨hp, ?_⟩)
        show decide (dupMismatch p.2 = some true) = true
        rw [hb]
        decide

theorem C4_dup_chart_reconciliation_witness :
    (∀ p ∈ [("G",
        [(kUniqMapped, MetricValue.i 7), (kDup, MetricValue.i 2),
         (kUnmapped, MetricValue.i 1), (kTotalRG, MetricValue.i 10)])],
      ∃ sv tv, dupSum p.2 = some sv ∧ dictGet p.2 kTotalRG = some tv ∧ pyEq sv tv = true)
    ∧ (∀ p ∈ [("G",
          [(kUniqMapped, MetricValue.i 7), (kDup, MetricValue.i 2),
           (kUnmapped, MetricValue.i 1), (kTotalRG, MetricValue.i 10)]),
        ("B",
          [(kUniqMapped, MetricValue.i 7), (kDup, MetricValue.i 2),
           (kUnmapped, MetricValue.i 1), (kTotalRG, MetricValue.i 11)])],
        p.1 ∉ ([("G",
          [(kUniqMapped, MetricValue.i 7), (kDup, MetricValue.i 2),
           (kUnmapped, MetricValue.i 1), (kTotalRG, MetricValue.i 10)])] : RecordMap).map Prod.fst →
        (∃ sv tv, dupSum p.2 = some sv ∧ dictGet p.2 kTotalRG = some tv ∧ pyEq sv tv = false)
        ∧ warnDup p.1 ∈ [warnDup "B"]) :=
  C4_dup_chart_reconciliation
    [("G",
      [(kUniqMapped, MetricValue.i 7), (kDup, MetricValue.i 2),
       (kUnmapped, MetricValue.i 1), (kTotalRG, MetricValue.i 10)]),
     ("B",
      [(kUniqMapped, MetricValue.i 7), (kDup, MetricValue.i 2),
       (kUnmapped, MetricValue.i 1), (kTotalRG, MetricValue.i 11)])]
    [("G",
      [(kUniqMapped, MetricValue.i 7), (kDup, MetricValue.i 2),
       (kUnmapped, MetricValue.i 1), (kTotalRG, MetricValue.i 10)])]
    [warnDup "B"]
    (by decide)

theorem pyDedup_foldl_length (l : List MetricValue) :
    ∀ acc : List MetricValue,
      acc.length ≤
        (l.foldl (fun acc v => if acc.any (fun w => pyEq w v) then acc else acc ++ [v]) acc).length := by
  induction l with
  | nil => intro acc; simp
  | cons v rest ih =>
    intro acc
    simp only [List.foldl_cons]
    by_cases h : acc.any (fun w => pyEq w v)
    · rw [if_pos h]
      exact ih acc
    · rw [if_neg h]
      calc acc.length ≤ (acc ++ [v]).length := by simp
        _ ≤ _ := ih (acc ++ [v])

theorem pyDedup_eq_nil_iff (l : List MetricValue) : pyDedup l = [] ↔ l = [] := by
  constructor
  · intro h
    cases l with
    | nil => rfl
    | cons v rest =>
      exfalso
      have h1 : (1 : Nat) ≤ (pyDedup (v :: rest)).length := by
        unfold pyDedup
        simp only [List.foldl_cons]
        have : ([] : List MetricValue).any (fun w => pyEq w v) = false := rfl
        rw [this]
        simpa using pyDedup_foldl_length rest [v]
      rw [h] at h1
      simp at h1
  · intro h
    rw [h]
    rfl

theorem collectVals_nil_iff (st : RecordMap) (mid : String) :
    collectVals st mid = [] ↔ ∀ p ∈ st, dictGet p.2 mid = none := by
  unfold collectVals
  rw [List.filterMap_eq_nil_iff]

theorem collectVals_map_erase (st : RecordMap) (k' mid : String) (hne : mid ≠ k') :
    collectVals (st.map (fun p => (p.1, eraseKey p.2 k'))) mid = collectVals st mid := by
  unfold collectVals
  rw [List.filterMap_map]
  have heq : ((fun p : String × Record => dictGet p.2 mid) ∘
      (fun p : String × Record => (p.1, eraseKey p.2 k')))
      = (fun p : String × Record => dictGet p.2 mid) := by
    funext p
    exact dictGet_eraseKey_ne _ _ _ hne
  rw [heq]

theorem delAll_eq_map (mid : String) :
    ∀ st st' : RecordMap, delAll mid st = some st' →
      st' = st.map (fun p => (p.1, eraseKey p.2 mid)) := by
  intro st
  induction st with
  | nil =>
    intro st' h
    simp only [delAll, Option.some_inj] at h
    rw [← h]
    rfl
  | cons p rest ih =>
    intro st' h
    simp only [delAll] at h
    cases hg : dictGet p.2 mid with
    | none => rw [hg] at h; exact absurd h (by simp)
    | some v =>
      rw [hg] at h
      cases hr : delAll mid rest with
      | none => rw [hr] at h; exact absurd h (by simp)
      | some r =>
        rw [hr] at h
        have h2 : (p.1, eraseKey p.2 mid) :: r = st' := by
          injection h
        rw [← h2, List.map_cons, ih r hr]

theorem delAll_all_present (mid : String) :
    ∀ st : RecordMap, (∀ p ∈ st, (dictGet p.2 mid).isSome = true) →
      delAll mid st = some (st.map (fun p => (p.1, eraseKey p.2 mid))) := by
  intro st
  induction st with
  | nil => intro _; rfl
  | cons p rest ih =>
    intro hall
    have hp := hall p (by simp)
    simp only [delAll]
    cases hg : dictGet p.2 mid with
    | none => rw [hg] at hp; simp at hp
    | some v =>
      rw [ih (fun q hq => hall q (by simp [hq]))]
      rfl

theorem delAll_missing (mid : String) :
    ∀ st : RecordMap, (∃ p ∈ st, dictGet p.2 mid = none) →
      delAll mid st = none := by
  intro st
  induction st with
  | nil => intro h; exact absurd h (by simp)
  | cons p rest ih =>
    intro h
    rcases h with ⟨q, hq, hnone⟩
    simp only [delAll]
    rcases List.mem_cons.mp hq with hq | hq
    · rw [hq] at hnone
      rw [hnone]
    · cases hg : dictGet p.2 mid with
      | none => rfl
      | some v =>
        rw [ih ⟨q, hq, hnone⟩]
        rfl

theorem processGeneralMetric_cases (cfg : Config) (st : RecordMap) (m : GeneralMetric)
    (st' : RecordMap) (fs : List ReportHeaderFact)
    (h : processGeneralMetric cfg st m = some (st', fs)) :
    ((pyDedup (collectVals st m.id)).length ≠ 1 ∧ st' = st ∧ fs = [])
    ∨ ((pyDedup (collectVals st m.id)).length = 1
        ∧ st' = st.map (fun p => (p.1, eraseKey p.2 m.id))) := by
  unfold processGeneralMetric at h
  cases hdd : pyDedup (collectVals st m.id) with
  | nil =>
    rw [hdd] at h
    simp only [Option.some_inj] at h
    left
    refine ⟨by simp, ?_, ?_⟩
    · exact (congrArg Prod.fst h).symm
    · exact (congrArg Prod.snd h).symm
  | cons v t =>
    cases t with
    | nil =>
      rw [hdd] at h
      right
      refine ⟨by simp, ?_⟩
      cases hna : pyEq v (MetricValue.s "NA") with
      | true =>
        simp only [hna, if_true] at h
        cases hda : delAll m.id st with
        | none => rw [hda] at h; exact absurd h (by simp)
        | some r =>
          rw [hda] at h
          simp only [Option.some_inj] at h
          rw [← delAll_eq_map m.id st r hda]
          exact (congrArg Prod.fst h).symm
      | false =>
        simp only [hna, if_false, Bool.false_eq_true] at h
        cases hw : generalFactValue cfg m v with
        | none => rw [hw] at h; simp at h
        | some w =>
          rw [hw] at h
          simp only [Option.map_some'] at h
          cases hda : delAll m.id st with
          | none => rw [hda] at h; exact absurd h (by simp)
          | some r =>
            rw [hda] at h
            simp only [Option.some_inj] at h
            rw [← delAll_eq_map m.id st r hda]
            exact (congrArg Prod.fst h).symm
    | cons w t' =>
      rw [hdd] at h
      simp only [Option.some_inj] at h
      left
      refine ⟨by simp, ?_, ?_⟩
      · exact (congrArg Prod.fst h).symm
      · exact (congrArg Prod.snd h).symm

theorem processGeneralMetric_establish (cfg : Config) (st : RecordMap) (m : GeneralMetric)
    (st' : RecordMap) (fs : List ReportHeaderFact)
    (h : processGeneralMetric cfg st m = some (st', fs)) :
    (∀ p ∈ st', dictGet p.2 m.id = none)
    ∨ 2 ≤ (pyDedup (collectVals st' m.id)).length := by
  rcases processGeneralMetric_cases cfg st m st' fs h with ⟨hlen, hst, _⟩ | ⟨_, hst⟩
  · subst hst
    rcases Nat.lt_or_ge (pyDedup (collectVals st' m.id)).length 2 with hlt | hge
    · left
      have h0 : (pyDedup (collectVals st' m.id)).length = 0 := by omega
      have hnil : pyDedup (collectVals st' m.id) = [] := List.length_eq_zero.mp h0
      have := (pyDedup_eq_nil_iff _).mp hnil
      exact (collectVals_nil_iff st' m.id).mp this
    · right; exact hge
  · subst hst
    left
    intro p hp
    rcases List.mem_map.mp hp with ⟨q, _, hq⟩
    rw [← hq]
    exact dictGet_eraseKey_self q.2 m.id

theorem processGeneralMetric_preserve (cfg : Config) (st : RecordMap) (m : GeneralMetric)
    (st' : RecordMap) (fs : List ReportHeaderFact) (mid : String) (hne : mid ≠ m.id)
    (h : processGeneralMetric cfg st m = some (st', fs))
    (hP : (∀ p ∈ st, dictGet p.2 mid = none)
      ∨ 2 ≤ (pyDedup (collectVals st mid)).length) :
    (∀ p ∈ st', dictGet p.2 mid = none)
    ∨ 2 ≤ (pyDedup (collectVals st' mid)).length := by
  rcases processGeneralMetric_cases cfg st m st' fs h with ⟨_, hst, _⟩ | ⟨_, hst⟩
  · rw [hst]; exact hP
  · subst hst
    rcases hP with hP | hP
    · left
      intro p hp
      rcases List.mem_map.mp hp with ⟨q, hq, hqe⟩
      rw [← hqe]
      rw [dictGet_eraseKey_ne q.2 m.id mid hne]
      exact hP q hq
    · right
      rw [collectVals_map_erase st m.id mid hne]
      exact hP

theorem promoter_fold_preserve (cfg : Config) :
    ∀ (ms : List GeneralMetric) (st : RecordMap) (acc : List ReportHeaderFact)
      (st' : RecordMap) (facts : List ReportHeaderFact),
      ms.foldlM
        (fun acc m => (processGeneralMetric cfg acc.1 m).map (fun r => (r.1, acc.2 ++ r.2)))
        (st, acc) = some (st', facts) →
      ∀ mid, (∀ m ∈ ms, mid ≠ m.id) →
        ((∀ p ∈ st, dictGet p.2 mid = none) ∨ 2 ≤ (pyDedup (collectVals st mid)).length) →
        ((∀ p ∈ st', dictGet p.2 mid = none) ∨ 2 ≤ (pyDedup (collectVals st' mid)).length) := by
  intro ms
  induction ms with
  | nil =>
    intro st acc st' facts h mid _ hP
    simp only [List.foldlM_nil, pure, Option.some_inj] at h
    cases h
    exact hP
  | cons m rest ih =>
    intro st acc st' facts h mid hne hP
    simp only [List.foldlM_cons] at h
    cases hstep : processGeneralMetric cfg st m with
    | none => rw [hstep] at h; exact absurd h (by simp)
    | some r =>
      rw [hstep] at h
      simp only [Option.map_some'] at h
      have h1 := processGeneralMetric_preserve cfg st m r.1 r.2 mid
        (hne m (by simp)) hstep hP
      exact ih r.1 (acc ++ r.2) st' facts h mid (fun m' hm' => hne m' (by simp [hm'])) h1

theorem promoter_fold_establish (cfg : Config) :
    ∀ (ms : List GeneralMetric) (st : RecordMap) (acc : List ReportHeaderFact)
      (st' : RecordMap) (facts : List ReportHeaderFact),
      ms.foldlM
        (fun acc m => (processGeneralMetric cfg acc.1 m).map (fun r => (r.1, acc.2 ++ r.2)))
        (st, acc) = some (st', facts) →
      (ms.map (fun m => m.id)).Nodup →
      ∀ m ∈ ms,
        (∀ p ∈ st', dictGet p.2 m.id = none)
        ∨ 2 ≤ (pyDedup (collectVals st' m.id)).length := by
  intro ms
  induction ms with
  | nil =>
    intro st acc st' facts _ _ m hm
    exact absurd hm (by simp)
  | cons m0 rest ih =>
    intro st acc st' facts h hnd m hm
    simp only [List.foldlM_cons] at h
    cases hstep : processGeneralMetric cfg st m0 with
    | none => rw [hstep] at h; exact absurd h (by simp)
    | some r =>
      rw [hstep] at h
      simp only [Option.map_some'] at h
      rcases List.mem_cons.mp hm with hm | hm
      · subst hm
        have hest := processGeneralMetric_establish cfg st m r.1 r.2 hstep
        have hfresh : ∀ m' ∈ rest, m.id ≠ m'.id := by
          intro m' hm'
          have := (List.nodup_cons.mp hnd).1
          intro hEq
          apply this
          show m.id ∈ List.map (fun m => m.id) rest
          rw [hEq]
          exact List.mem_map_of_mem (fun m => m.id) hm'
        exact promoter_fold_preserve cfg rest r.1 (acc ++ r.2) st' facts h m.id hfresh hest
      · exact ih r.1 (acc ++ r.2) st' facts h (List.nodup_cons.mp hnd).2 m hm

/-- C2: after a successful run of the promoter, every catalog general
metric identifier is either absent from all samples or present with at
least two distinct values (under Python equality) across the samples that
contain it; none is left with exactly one distinct value. -/
theorem C2_promotion_invariant (cfg : Config) (st st' : RecordMap)
    (facts : List ReportHeaderFact)
    (h : maybe_add_general_metrics cfg st = some (st', facts)) :
    ∀ m ∈ GENERAL_METRICS cfg,
      (∀ p ∈ st', dictGet p.2 m.id = none)
      ∨ 2 ≤ (pyDedup (collectVals st' m.id)).length := by
  have hnd : ((GENERAL_METRICS cfg).map (fun m => m.id)).Nodup := by
    simp only [GENERAL_METRICS, List.map_cons, List.map_nil]
    decide
  intro m hm
  exact promoter_fold_establish cfg (GENERAL_METRICS cfg) st [] st' facts h hnd m hm

theorem C2_promotion_invariant_witness :
    (∀ p ∈ ([("A", [("x", MetricValue.i 1)])] : RecordMap),
        dictGet p.2 "Bases in reference genome" = none)
    ∨ 2 ≤ (pyDedup (collectVals [("A", [("x", MetricValue.i 1)])]
        "Bases in reference genome")).length :=
  C2_promotion_invariant ⟨1, "", "", 1, "", ""⟩
    [("A", [("x", MetricValue.i 1)])] [("A", [("x", MetricValue.i 1)])] []
    (by decide)
    ⟨"Bases in reference genome", "Bases in ref. genome:",
      base_format ⟨1, "", "", 1, "", ""⟩, GenModify.baseCountMult⟩
    (by decide)

/-- C3 counterexample: a general metric (`Provided sex chromosome ploidy`)
with exactly one distinct non-`NA` value across the samples containing it,
while another sample lacks the key: the promoter does not skip the
key-less sample; its `del data[metric]` raises `KeyError` and the promoter
fails, contradicting the claim that the deletion never fails on such
samples. -/
theorem C3_promoter_keyerror_counterexample :
    pyDedup (collectVals
        [("A", [("Provided sex chromosome ploidy", MetricValue.i 2)]), ("B", [])]
        "Provided sex chromosome ploidy") = [MetricValue.i 2]
    ∧ pyEq (MetricValue.i 2) (MetricValue.s "NA") = false
    ∧ maybe_add_general_metrics ⟨1, "", "", 1, "", ""⟩
        [("A", [("Provided sex chromosome ploidy", MetricValue.i 2)]), ("B", [])] = none := by
  refine ⟨?_, ?_, ?_⟩ <;> decide

/-- C3 (amended): when a general metric has exactly one distinct value
across the samples that contain it and the value is not the `NA` marker,
the promoter emits one formatted header fact and deletes the identifier
from every sample — but only when every sample contains the identifier; a
sample lacking it makes the deletion fail with a `KeyError` instead of
being skipped. -/
theorem C3_promoter_single_value_deletion (cfg : Config) (st : RecordMap)
    (m : GeneralMetric) (v w : MetricValue)
    (hdd : pyDedup (collectVals st m.id) = [v])
    (hna : pyEq v (MetricValue.s "NA") = false)
    (hw : generalFactValue cfg m v = some w) :
    ((∀ p ∈ st, (dictGet p.2 m.id).isSome = true) →
      processGeneralMetric cfg st m
        = some (st.map (fun p => (p.1, eraseKey p.2 m.id)), [⟨m.title, m.fmt, w⟩]))
    ∧ ((∃ p ∈ st, dictGet p.2 m.id = none) →
      processGeneralMetric cfg st m = none) := by
  have hred : processGeneralMetric cfg st m
      = (match (if pyEq v (MetricValue.s "NA") = true then some ([] : List ReportHeaderFact)
            else Option.map (fun w => [ReportHeaderFact.mk m.title m.fmt w])
              (generalFactValue cfg m v)),
          delAll m.id st with
        | some fs, some st' => some (st', fs)
        | _, _ => none) := by
    unfold processGeneralMetric
    rw [hdd]
  rw [hna] at hred
  rw [hw] at hred
  simp only [Bool.false_eq_true, if_false, Option.map_some'] at hred
  constructor
  · intro hall
    rw [hred, delAll_all_present m.id st hall]
  · intro hmiss
    rw [hred, delAll_missing m.id st hmiss]

theorem C3_promoter_single_value_deletion_witness :
    ((∀ p ∈ ([("A", [("Provided sex chromosome ploidy", MetricValue.i 2)]),
              ("B", [("Provided sex chromosome ploidy", MetricValue.i 2)])] : RecordMap),
        (dictGet p.2 (GeneralMetric.mk "Provided sex chromosome ploidy"
          "Prov. sex chrom ploidy:" "\x7b\x7d" GenModify.noMod).id).isSome = true) →
      processGeneralMetric ⟨1, "", "", 1, "", ""⟩
          [("A", [("Provided sex chromosome ploidy", MetricValue.i 2)]),
           ("B", [("Provided sex chromosome ploidy", MetricValue.i 2)])]
          (GeneralMetric.mk "Provided sex chromosome ploidy"
            "Prov. sex chrom ploidy:" "\x7b\x7d" GenModify.noMod)
        = some (([("A", [("Provided sex chromosome ploidy", MetricValue.i 2)]),
                  ("B", [("Provided sex chromosome ploidy", MetricValue.i 2)])] : RecordMap).map
            (fun p => (p.1, eraseKey p.2 (GeneralMetric.mk "Provided sex chromosome ploidy"
              "Prov. sex chrom ploidy:" "\x7b\x7d" GenModify.noMod).id)),
            [⟨(GeneralMetric.mk "Provided sex chromosome ploidy"
                "Prov. sex chrom ploidy:" "\x7b\x7d" GenModify.noMod).title,
              (GeneralMetric.mk "Provided sex chromosome ploidy"
                "Prov. sex chrom ploidy:" "\x7b\x7d" GenModify.noMod).fmt,
              MetricValue.i 2⟩]))
    ∧ ((∃ p ∈ ([("A", [("Provided sex chromosome ploidy", MetricValue.i 2)]),
                ("B", [("Provided sex chromosome ploidy", MetricValue.i 2)])] : RecordMap),
        dictGet p.2 (GeneralMetric.mk "Provided sex chromosome ploidy"
          "Prov. sex chrom ploidy:" "\x7b\x7d" GenModify.noMod).id = none) →
      processGeneralMetric ⟨1, "", "", 1, "", ""⟩
          [("A", [("Provided sex chromosome ploidy", MetricValue.i 2)]),
           ("B", [("Provided sex chromosome ploidy", MetricValue.i 2)])]
          (GeneralMetric.mk "Provided sex chromosome ploidy"
            "Prov. sex chrom ploidy:" "\x7b\x7d" GenModify.noMod) = none) :=
  C3_promoter_single_value_deletion ⟨1, "", "", 1, "", ""⟩
    [("A", [("Provided sex chromosome ploidy", MetricValue.i 2)]),
     ("B", [("Provided sex chromosome ploidy", MetricValue.i 2)])]
    (GeneralMetric.mk "Provided sex chromosome ploidy"
      "Prov. sex chrom ploidy:" "\x7b\x7d" GenModify.noMod)
    (MetricValue.i 2) (MetricValue.i 2)
    (by decide) (by decide) (by decide)

theorem except_bind_ok {α β : Type} (x : Except String α) (f : α → Except String β) (b : β)
    (h : (x >>= f) = .ok b) : ∃ a, x = .ok a ∧ f a = .ok b := by
  cases x with
  | error e => exact absurd h (by simp [Bind.bind, Except.bind])
  | ok a => exact ⟨a, rfl, by simpa [Bind.bind, Except.bind] using h⟩

theorem fixDupNA_ok (d d' : Record) (h : fixDupNA d = .ok d') :
    (∀ k, k ≠ kDup → dictGet d' k = dictGet d k)
    ∧ (∀ v, dictGet d kDup = some v → pyEq v (MetricValue.s "NA") = true →
        dictGet d' kDup = some (MetricValue.i 0)) := by
  unfold fixDupNA at h
  split at h
  · exact absurd h (by simp)
  · rename_i v0 hg
    have hd' : (if pyEq v0 (MetricValue.s "NA") = true
        then dictInsert d kDup (MetricValue.i 0) else d) = d' := by
      injection h
    constructor
    · intro k hk
      rw [← hd']
      by_cases hna : pyEq v0 (MetricValue.s "NA") = true
      · rw [if_pos hna, dictGet_dictInsert_ne d kDup k _ hk]
      · rw [if_neg hna]
    · intro v hv hna
      rw [hg] at hv
      injection hv with hv
      rw [← hv] at hna
      rw [← hd', if_pos hna]
      exact dictGet_dictInsert_self d kDup _

theorem fixDupMateNA_ok (d d' : Record) (h : fixDupMateNA d = .ok d') :
    (∀ k, k ≠ kDupMate → dictGet d' k = dictGet d k)
    ∧ (∀ v, dictGet d kDupMate = some v → pyEq v (MetricValue.s "NA") = true →
        dictGet d' kDupMate = some (MetricValue.i 0)) := by
  unfold fixDupMateNA at h
  split at h
  · exact absurd h (by simp)
  · rename_i v0 hg
    have hd' : (if pyEq v0 (MetricValue.s "NA") = true
        then dictInsert d kDupMate (MetricValue.i 0) else d) = d' := by
      injection h
    constructor
    · intro k hk
      rw [← hd']
      by_cases hna : pyEq v0 (MetricValue.s "NA") = true
      · rw [if_pos hna, dictGet_dictInsert_ne d kDupMate k _ hk]
      · rw [if_neg hna]
    · intro v hv hna
      rw [hg] at hv
      injection hv with hv
      rw [← hv] at hna
      rw [← hd', if_pos hna]
      exact dictGet_dictInsert_self d kDupMate _

theorem fixUniqNA_ok (d d' : Record) (h : fixUniqNA d = .ok d') :
    (∀ k, k ≠ kUniq → dictGet d' k = dictGet d k)
    ∧ (∀ v, dictGet d kUniq = some v → pyEq v (MetricValue.s "NA") = true →
        dictGet d' kUniq = dictGet d kMapped) := by
  unfold fixUniqNA at h
  split at h
  · exact absurd h (by simp)
  · rename_i v0 hg
    by_cases hna : pyEq v0 (MetricValue.s "NA") = true
    · rw [if_pos hna] at h
      split at h
      · exact absurd h (by simp)
      · rename_i mv hm
        have hd' : dictInsert d kUniq mv = d' := by injection h
        constructor
        · intro k hk
          rw [← hd', dictGet_dictInsert_ne d kUniq k _ hk]
        · intro v _ _
          rw [← hd', hm, dictGet_dictInsert_self]
    · rw [if_neg hna] at h
      have hd' : d = d' := by injection h
      subst hd'
      constructor
      · intro k _; rfl
      · intro v hv hna2
        rw [hg] at hv
        injection hv with hv
        rw [hv] at hna
        exact absurd hna2 hna

theorem addSecPct_ok (d d' : Record) (h : addSecPct d = .ok d') :
    (∀ k, k ≠ kSecPct → dictGet d' k = dictGet d k)
    ∧ (∀ t, dictGet d kTotAlign = some t → pyGtZero t = some true →
        ∃ sv q, dictGet d kSecAlign = some sv ∧ pyDivTimes100 sv t = some q
          ∧ dictGet d' kSecPct = some (MetricValue.f q)) := by
  unfold addSecPct at h
  split at h
  · exact absurd h (by simp)
  · rename_i t0 hg
    split at h
    · exact absurd h (by simp)
    · -- pyGtZero t0 = some false
      rename_i hgt
      have hd' : d = d' := by injection h
      subst hd'
      constructor
      · intro k _; rfl
      · intro t ht htrue
        rw [hg] at ht
        injection ht with ht
        rw [ht] at hgt
        rw [hgt] at htrue
        exact absurd htrue (by simp)
    · -- pyGtZero t0 = some true
      rename_i hgt
      split at h
      · exact absurd h (by simp)
      · rename_i sv hs
        split at h
        · exact absurd h (by simp)
        · rename_i q hq
          have hd' : dictInsert d kSecPct (MetricValue.f q) = d' := by injection h
          constructor
          · intro k hk
            rw [← hd', dictGet_dictInsert_ne d kSecPct k _ hk]
          · intro t ht _
            rw [hg] at ht
            injection ht with ht
            rw [← ht]
            exact ⟨sv, q, hs, hq, by rw [← hd', dictGet_dictInsert_self]⟩

theorem addBasePcts_ok (d d' : Record) (h : addBasePcts d = .ok d') :
    (∀ k, k ≠ kQ30Excl ++ " pct" → k ≠ kMappedR1 ++ " pct" → k ≠ kMappedR2 ++ " pct" →
      dictGet d' k = dictGet d k)
    ∧ (∀ t, dictGet d kTotBases = some t → pyGtZero t = some true →
        (∃ v q, dictGet d kQ30Excl = some v ∧ pyDivTimes100 v t = some q
          ∧ dictGet d' (kQ30Excl ++ " pct") = some (MetricValue.f q))
        ∧ (∃ v q, dictGet d kMappedR1 = some v ∧ pyDivTimes100 v t = some q
          ∧ dictGet d' (kMappedR1 ++ " pct") = some (MetricValue.f q))
        ∧ (∃ v q, dictGet d kMappedR2 = some v ∧ pyDivTimes100 v t = some q
          ∧ dictGet d' (kMappedR2 ++ " pct") = some (MetricValue.f q))) := by
  have hr1q : kMappedR1 ≠ kQ30Excl ++ " pct" := by decide
  have hr2q : kMappedR2 ≠ kQ30Excl ++ " pct" := by decide
  have hr2r1 : kMappedR2 ≠ kMappedR1 ++ " pct" := by decide
  have hq_r1 : kQ30Excl ++ " pct" ≠ kMappedR1 ++ " pct" := by decide
  have hq_r2 : kQ30Excl ++ " pct" ≠ kMappedR2 ++ " pct" := by decide
  have hr1_r2 : kMappedR1 ++ " pct" ≠ kMappedR2 ++ " pct" := by decide
  unfold addBasePcts at h
  split at h
  · exact absurd h (by simp)
  · rename_i t0 hg
    split at h
    · exact absurd h (by simp)
    · -- pyGtZero t0 = some false
      rename_i hgt
      have hd' : d = d' := by injection h
      subst hd'
      constructor
      · intro k _ _ _; rfl
      · intro t ht htrue
        rw [hg] at ht
        injection ht with ht
        rw [ht] at hgt
        rw [hgt] at htrue
        exact absurd htrue (by simp)
    · -- pyGtZero t0 = some true
      rename_i hgt
      split at h
      · exact absurd h (by simp)
      · rename_i v1 h1
        split at h
        · exact absurd h (by simp)
        · rename_i q1 hq1
          split at h
          · exact absurd h (by simp)
          · rename_i v2 h2
            split at h
            · exact absurd h (by simp)
            · rename_i q2 hq2
              split at h
              · exact absurd h (by simp)
              · rename_i v3 h3
                split at h
                · exact absurd h (by simp)
                · rename_i q3 hq3
                  have hd' : dictInsert (dictInsert
                      (dictInsert d (kQ30Excl ++ " pct") (MetricValue.f q1))
                      (kMappedR1 ++ " pct") (MetricValue.f q2))
                      (kMappedR2 ++ " pct") (MetricValue.f q3) = d' := by
                    injection h
                  have h2' : dictGet d kMappedR1 = some v2 := by
                    rw [← h2, dictGet_dictInsert_ne _ _ _ _ hr1q]
                  have h3' : dictGet d kMappedR2 = some v3 := by
                    rw [← h3, dictGet_dictInsert_ne _ _ _ _ hr2r1,
                      dictGet_dictInsert_ne _ _ _ _ hr2q]
                  constructor
                  · intro k hk1 hk2 hk3
                    rw [← hd', dictGet_dictInsert_ne _ _ _ _ hk3,
                      dictGet_dictInsert_ne _ _ _ _ hk2,
                      dictGet_dictInsert_ne _ _ _ _ hk1]
                  · intro t ht _
                    rw [hg] at ht
                    injection ht with ht
                    rw [← ht]
                    refine ⟨⟨v1, q1, h1, hq1, ?_⟩, ⟨v2, q2, h2', hq2, ?_⟩,
                      ⟨v3, q3, h3', hq3, ?_⟩⟩
                    · rw [← hd', dictGet_dictInsert_ne _ _ _ _ hq_r2,
                        dictGet_dictInsert_ne _ _ _ _ hq_r1,
                        dictGet_dictInsert_self]
                    · rw [← hd', dictGet_dictInsert_ne _ _ _ _ hr1_r2,
                        dictGet_dictInsert_self]
                    · rw [← hd', dictGet_dictInsert_self]

/-- C7: the post-parse fixups on a record that survives them: `NA`
duplicate-marked counts default to zero, an `NA` unique-read count defaults
to the mapped-read count, and positive totals produce the derived
secondary-alignment and base percentages, each as component over total
times 100. -/
theorem C7_postparse_fixups (d out : Record) (h : fixupRecord d = .ok out) :
    (∀ v, dictGet d kDup = some v → pyEq v (MetricValue.s "NA") = true →
      dictGet out kDup = some (MetricValue.i 0))
    ∧ (∀ v, dictGet d kDupMate = some v → pyEq v (MetricValue.s "NA") = true →
      dictGet out kDupMate = some (MetricValue.i 0))
    ∧ (∀ v, dictGet d kUniq = some v → pyEq v (MetricValue.s "NA") = true →
      dictGet out kUniq = dictGet d kMapped)
    ∧ (∀ t, dictGet d kTotAlign = some t → pyGtZero t = some true →
      ∃ sv q, dictGet d kSecAlign = some sv ∧ pyDivTimes100 sv t = some q
        ∧ dictGet out kSecPct = some (MetricValue.f q))
    ∧ (∀ t, dictGet d kTotBases = some t → pyGtZero t = some true →
      (∃ v q, dictGet d kQ30Excl = some v ∧ pyDivTimes100 v t = some q
        ∧ dictGet out (kQ30Excl ++ " pct") = some (MetricValue.f q))
      ∧ (∃ v q, dictGet d kMappedR1 = some v ∧ pyDivTimes100 v t = some q
        ∧ dictGet out (kMappedR1 ++ " pct") = some (MetricValue.f q))
      ∧ (∃ v q, dictGet d kMappedR2 = some v ∧ pyDivTimes100 v t = some q
        ∧ dictGet out (kMappedR2 ++ " pct") = some (MetricValue.f q))) := by
  unfold fixupRecord at h
  obtain ⟨d1, h1, h⟩ := except_bind_ok _ _ _ h
  obtain ⟨d2, h2, h⟩ := except_bind_ok _ _ _ h
  obtain ⟨d3, h3, h⟩ := except_bind_ok _ _ _ h
  obtain ⟨d4, h4, h5⟩ := except_bind_ok _ _ _ h
  have pres1 := (fixDupNA_ok d d1 h1).1
  have pres2 := (fixDupMateNA_ok d1 d2 h2).1
  have pres3 := (fixUniqNA_ok d2 d3 h3).1
  have pres4 := (addSecPct_ok d3 d4 h4).1
  have pres5 := (addBasePcts_ok d4 out h5).1
  have f3 : ∀ k, k ≠ kDup → k ≠ kDupMate → k ≠ kUniq → dictGet d3 k = dictGet d k :=
    fun k n1 n2 n3 => (pres3 k n3).trans ((pres2 k n2).trans (pres1 k n1))
  have f4 : ∀ k, k ≠ kDup → k ≠ kDupMate → k ≠ kUniq → k ≠ kSecPct →
      dictGet d4 k = dictGet d k :=
    fun k n1 n2 n3 n4 => (pres4 k n4).trans (f3 k n1 n2 n3)
  refine ⟨?_, ?_, ?_, ?_, ?_⟩
  · intro v hv hna
    have hfix := (fixDupNA_ok d d1 h1).2 v hv hna
    rw [pres5 kDup (by decide) (by decide) (by decide),
      pres4 kDup (by decide), pres3 kDup (by decide), pres2 kDup (by decide)]
    exact hfix
  · intro v hv hna
    have hv1 : dictGet d1 kDupMate = some v := (pres1 kDupMate (by decide)).trans hv
    have hfix := (fixDupMateNA_ok d1 d2 h2).2 v hv1 hna
    rw [pres5 kDupMate (by decide) (by decide) (by decide),
      pres4 kDupMate (by decide), pres3 kDupMate (by decide)]
    exact hfix
  · intro v hv hna
    have hv2 : dictGet d2 kUniq = some v :=
      (pres2 kUniq (by decide)).trans ((pres1 kUniq (by decide)).trans hv)
    have hfix := (fixUniqNA_ok d2 d3 h3).2 v hv2 hna
    have hmap : dictGet d2 kMapped = dictGet d kMapped :=
      (pres2 kMapped (by decide)).trans (pres1 kMapped (by decide))
    rw [pres5 kUniq (by decide) (by decide) (by decide), pres4 kUniq (by decide),
      hfix, hmap]
  · intro t ht htrue
    have ht3 : dictGet d3 kTotAlign = some t :=
      (f3 kTotAlign (by decide) (by decide) (by decide)).trans ht
    obtain ⟨sv, q, hs3, hq, hout4⟩ := (addSecPct_ok d3 d4 h4).2 t ht3 htrue
    refine ⟨sv, q, ?_, hq, ?_⟩
    · rw [← f3 kSecAlign (by decide) (by decide) (by decide)]
      exact hs3
    · rw [pres5 kSecPct (by decide) (by decide) (by decide)]
      exact hout4
  · intro t ht htrue
    have ht4 : dictGet d4 kTotBases = some t :=
      (f4 kTotBases (by decide) (by decide) (by decide) (by decide)).trans ht
    obtain ⟨⟨v1, q1, hv1, hq1, ho1⟩, ⟨v2, q2, hv2, hq2, ho2⟩, ⟨v3, q3, hv3, hq3, ho3⟩⟩ :=
      (addBasePcts_ok d4 out h5).2 t ht4 htrue
    refine ⟨⟨v1, q1, ?_, hq1, ho1⟩, ⟨v2, q2, ?_, hq2, ho2⟩, ⟨v3, q3, ?_, hq3, ho3⟩⟩
    · rw [← f4 kQ30Excl (by decide) (by decide) (by decide) (by decide)]
      exact hv1
    · rw [← f4 kMappedR1 (by decide) (by decide) (by decide) (by decide)]
      exact hv2
    · rw [← f4 kMappedR2 (by decide) (by decide) (by decide) (by decide)]
      exact hv3

theorem except_ok_bind {β γ : Type} (a : β) (f : β → Except String γ) :
    (Except.ok a >>= f : Except String γ) = f a := rfl

theorem C7_postparse_fixups_witness :
    (∀ v, dictGet
        [(kDup, MetricValue.s "NA"), (kDupMate, MetricValue.s "NA"),
         (kUniq, MetricValue.s "NA"), (kMapped, MetricValue.i 5),
         (kTotAlign, MetricValue.i 10), (kSecAlign, MetricValue.i 1),
         (kTotBases, MetricValue.i 100), (kQ30Excl, MetricValue.i 50),
         (kMappedR1, MetricValue.i 30), (kMappedR2, MetricValue.i 20)] kDup = some v →
      pyEq v (MetricValue.s "NA") = true →
      dictGet
        [(kDup, MetricValue.i 0), (kDupMate, MetricValue.i 0),
         (kUniq, MetricValue.i 5), (kMapped, MetricValue.i 5),
         (kTotAlign, MetricValue.i 10), (kSecAlign, MetricValue.i 1),
         (kTotBases, MetricValue.i 100), (kQ30Excl, MetricValue.i 50),
         (kMappedR1, MetricValue.i 30), (kMappedR2, MetricValue.i 20),
         (kSecPct, MetricValue.f 10), (kQ30Excl ++ " pct", MetricValue.f 50),
         (kMappedR1 ++ " pct", MetricValue.f 30), (kMappedR2 ++ " pct", MetricValue.f 20)]
        kDup = some (MetricValue.i 0))
    ∧ (∀ v, dictGet
        [(kDup, MetricValue.s "NA"), (kDupMate, MetricValue.s "NA"),
         (kUniq, MetricValue.s "NA"), (kMapped, MetricValue.i 5),
         (kTotAlign, MetricValue.i 10), (kSecAlign, MetricValue.i 1),
         (kTotBases, MetricValue.i 100), (kQ30Excl, MetricValue.i 50),
         (kMappedR1, MetricValue.i 30), (kMappedR2, MetricValue.i 20)] kDupMate = some v →
      pyEq v (MetricValue.s "NA") = true →
      dictGet
        [(kDup, MetricValue.i 0), (kDupMate, MetricValue.i 0),
         (kUniq, MetricValue.i 5), (kMapped, MetricValue.i 5),
         (kTotAlign, MetricValue.i 10), (kSecAlign, MetricValue.i 1),
         (kTotBases, MetricValue.i 100), (kQ30Excl, MetricValue.i 50),
         (kMappedR1, MetricValue.i 30), (kMappedR2, MetricValue.i 20),
         (kSecPct, MetricValue.f 10), (kQ30Excl ++ " pct", MetricValue.f 50),
         (kMappedR1 ++ " pct", MetricValue.f 30), (kMappedR2 ++ " pct", MetricValue.f 20)]
        kDupMate = some (MetricValue.i 0))
    ∧ (∀ v, dictGet
        [(kDup, MetricValue.s "NA"), (kDupMate, MetricValue.s "NA"),
         (kUniq, MetricValue.s "NA"), (kMapped, MetricValue.i 5),
         (kTotAlign, MetricValue.i 10), (kSecAlign, MetricValue.i 1),
         (kTotBases, MetricValue.i 100), (kQ30Excl, MetricValue.i 50),
         (kMappedR1, MetricValue.i 30), (kMappedR2, MetricValue.i 20)] kUniq = some v →
      pyEq v (MetricValue.s "NA") = true →
      dictGet
        [(kDup, MetricValue.i 0), (kDupMate, MetricValue.i 0),
         (kUniq, MetricValue.i 5), (kMapped, MetricValue.i 5),
         (kTotAlign, MetricValue.i 10), (kSecAlign, MetricValue.i 1),
         (kTotBases, MetricValue.i 100), (kQ30Excl, MetricValue.i 50),
         (kMappedR1, MetricValue.i 30), (kMappedR2, MetricValue.i 20),
         (kSecPct, MetricValue.f 10), (kQ30Excl ++ " pct", MetricValue.f 50),
         (kMappedR1 ++ " pct", MetricValue.f 30), (kMappedR2 ++ " pct", MetricValue.f 20)]
        kUniq
      = dictGet
        [(kDup, MetricValue.s "NA"), (kDupMate, MetricValue.s "NA"),
         (kUniq, MetricValue.s "NA"), (kMapped, MetricValue.i 5),
         (kTotAlign, MetricValue.i 10), (kSecAlign, MetricValue.i 1),
         (kTotBases, MetricValue.i 100), (kQ30Excl, MetricValue.i 50),
         (kMappedR1, MetricValue.i 30), (kMappedR2, MetricValue.i 20)] kMapped)
    ∧ (∀ t, dictGet
        [(kDup, MetricValue.s "NA"), (kDupMate, MetricValue.s "NA"),
         (kUniq, MetricValue.s "NA"), (kMapped, MetricValue.i 5),
         (kTotAlign, MetricValue.i 10), (kSecAlign, MetricValue.i 1),
         (kTotBases, MetricValue.i 100), (kQ30Excl, MetricValue.i 50),
         (kMappedR1, MetricValue.i 30), (kMappedR2, MetricValue.i 20)] kTotAlign = some t →
      pyGtZero t = some true →
      ∃ sv q, dictGet
        [(kDup, MetricValue.s "NA"), (kDupMate, MetricValue.s "NA"),
         (kUniq, MetricValue.s "NA"), (kMapped, MetricValue.i 5),
         (kTotAlign, MetricValue.i 10), (kSecAlign, MetricValue.i 1),
         (kTotBases, MetricValue.i 100), (kQ30Excl, MetricValue.i 50),
         (kMappedR1, MetricValue.i 30), (kMappedR2, MetricValue.i 20)] kSecAlign = some sv
        ∧ pyDivTimes100 sv t = some q
        ∧ dictGet
          [(kDup, MetricValue.i 0), (kDupMate, MetricValue.i 0),
           (kUniq, MetricValue.i 5), (kMapped, MetricValue.i 5),
           (kTotAlign, MetricValue.i 10), (kSecAlign, MetricValue.i 1),
           (kTotBases, MetricValue.i 100), (kQ30Excl, MetricValue.i 50),
           (kMappedR1, MetricValue.i 30), (kMappedR2, MetricValue.i 20),
           (kSecPct, MetricValue.f 10), (kQ30Excl ++ " pct", MetricValue.f 50),
           (kMappedR1 ++ " pct", MetricValue.f 30), (kMappedR2 ++ " pct", MetricValue.f 20)]
          kSecPct = some (MetricValue.f q))
    ∧ (∀ t, dictGet
        [(kDup, MetricValue.s "NA"), (kDupMate, MetricValue.s "NA"),
         (kUniq, MetricValue.s "NA"), (kMapped, MetricValue.i 5),
         (kTotAlign, MetricValue.i 10), (kSecAlign, MetricValue.i 1),
         (kTotBases, MetricValue.i 100), (kQ30Excl, MetricValue.i 50),
         (kMappedR1, MetricValue.i 30), (kMappedR2, MetricValue.i 20)] kTotBases = some t →
      pyGtZero t = some true →
      (∃ v q, dictGet
          [(kDup, MetricValue.s "NA"), (kDupMate, MetricValue.s "NA"),
           (kUniq, MetricValue.s "NA"), (kMapped, MetricValue.i 5),
           (kTotAlign, MetricValue.i 10), (kSecAlign, MetricValue.i 1),
           (kTotBases, MetricValue.i 100), (kQ30Excl, MetricValue.i 50),
           (kMappedR1, MetricValue.i 30), (kMappedR2, MetricValue.i 20)] kQ30Excl = some v
        ∧ pyDivTimes100 v t = some q
        ∧ dictGet
          [(kDup, MetricValue.i 0), (kDupMate, MetricValue.i 0),
           (kUniq, MetricValue.i 5), (kMapped, MetricValue.i 5),
           (kTotAlign, MetricValue.i 10), (kSecAlign, MetricValue.i 1),
           (kTotBases, MetricValue.i 100), (kQ30Excl, MetricValue.i 50),
           (kMappedR1, MetricValue.i 30), (kMappedR2, MetricValue.i 20),
           (kSecPct, MetricValue.f 10), (kQ30Excl ++ " pct", MetricValue.f 50),
           (kMappedR1 ++ " pct", MetricValue.f 30), (kMappedR2 ++ " pct", MetricValue.f 20)]
          (kQ30Excl ++ " pct") = some (MetricValue.f q))
      ∧ (∃ v q, dictGet
          [(kDup, MetricValue.s "NA"), (kDupMate, MetricValue.s "NA"),
           (kUniq, MetricValue.s "NA"), (kMapped, MetricValue.i 5),
           (kTotAlign, MetricValue.i 10), (kSecAlign, MetricValue.i 1),
           (kTotBases, MetricValue.i 100), (kQ30Excl, MetricValue.i 50),
           (kMappedR1, MetricValue.i 30), (kMappedR2, MetricValue.i 20)] kMappedR1 = some v
        ∧ pyDivTimes100 v t = some q
        ∧ dictGet
          [(kDup, MetricValue.i 0), (kDupMate, MetricValue.i 0),
           (kUniq, MetricValue.i 5), (kMapped, MetricValue.i 5),
           (kTotAlign, MetricValue.i 10), (kSecAlign, MetricValue.i 1),
           (kTotBases, MetricValue.i 100), (kQ30Excl, MetricValue.i 50),
           (kMappedR1, MetricValue.i 30), (kMappedR2, MetricValue.i 20),
           (kSecPct, MetricValue.f 10), (kQ30Excl ++ " pct", MetricValue.f 50),
           (kMappedR1 ++ " pct", MetricValue.f 30), (kMappedR2 ++ " pct", MetricValue.f 20)]
          (kMappedR1 ++ " pct") = some (MetricValue.f q))
      ∧ (∃ v q, dictGet
          [(kDup, MetricValue.s "NA"), (kDupMate, MetricValue.s "NA"),
           (kUniq, MetricValue.s "NA"), (kMapped, MetricValue.i 5),
           (kTotAlign, MetricValue.i 10), (kSecAlign, MetricValue.i 1),
           (kTotBases, MetricValue.i 100), (kQ30Excl, MetricValue.i 50),
           (kMappedR1, MetricValue.i 30), (kMappedR2, MetricValue.i 20)] kMappedR2 = some v
        ∧ pyDivTimes100 v t = some q
        ∧ dictGet
          [(kDup, MetricValue.i 0), (kDupMate, MetricValue.i 0),
           (kUniq, MetricValue.i 5), (kMapped, MetricValue.i 5),
           (kTotAlign, MetricValue.i 10), (kSecAlign, MetricValue.i 1),
           (kTotBases, MetricValue.i 100), (kQ30Excl, MetricValue.i 50),
           (kMappedR1, MetricValue.i 30), (kMappedR2, MetricValue.i 20),
           (kSecPct, MetricValue.f 10), (kQ30Excl ++ " pct", MetricValue.f 50),
           (kMappedR1 ++ " pct", MetricValue.f 30), (kMappedR2 ++ " pct", MetricValue.f 20)]
          (kMappedR2 ++ " pct") = some (MetricValue.f q))) :=
  C7_postparse_fixups
    [(kDup, MetricValue.s "NA"), (kDupMate, MetricValue.s "NA"),
     (kUniq, MetricValue.s "NA"), (kMapped, MetricValue.i 5),
     (kTotAlign, MetricValue.i 10), (kSecAlign, MetricValue.i 1),
     (kTotBases, MetricValue.i 100), (kQ30Excl, MetricValue.i 50),
     (kMappedR1, MetricValue.i 30), (kMappedR2, MetricValue.i 20)]
    [(kDup, MetricValue.i 0), (kDupMate, MetricValue.i 0),
     (kUniq, MetricValue.i 5), (kMapped, MetricValue.i 5),
     (kTotAlign, MetricValue.i 10), (kSecAlign, MetricValue.i 1),
     (kTotBases, MetricValue.i 100), (kQ30Excl, MetricValue.i 50),
     (kMappedR1, MetricValue.i 30), (kMappedR2, MetricValue.i 20),
     (kSecPct, MetricValue.f 10), (kQ30Excl ++ " pct", MetricValue.f 50),
     (kMappedR1 ++ " pct", MetricValue.f 30), (kMappedR2 ++ " pct", MetricValue.f 20)]
    (by
      have s1 : fixDupNA
          [(kDup, MetricValue.s "NA"), (kDupMate, MetricValue.s "NA"),
           (kUniq, MetricValue.s "NA"), (kMapped, MetricValue.i 5),
           (kTotAlign, MetricValue.i 10), (kSecAlign, MetricValue.i 1),
           (kTotBases, MetricValue.i 100), (kQ30Excl, MetricValue.i 50),
           (kMappedR1, MetricValue.i 30), (kMappedR2, MetricValue.i 20)]
          = .ok [(kDup, MetricValue.i 0), (kDupMate, MetricValue.s "NA"),
           (kUniq, MetricValue.s "NA"), (kMapped, MetricValue.i 5),
           (kTotAlign, MetricValue.i 10), (kSecAlign, MetricValue.i 1),
           (kTotBases, MetricValue.i 100), (kQ30Excl, MetricValue.i 50),
           (kMappedR1, MetricValue.i 30), (kMappedR2, MetricValue.i 20)] := by decide
      have s2 : fixDupMateNA
          [(kDup, MetricValue.i 0), (kDupMate, MetricValue.s "NA"),
           (kUniq, MetricValue.s "NA"), (kMapped, MetricValue.i 5),
           (kTotAlign, MetricValue.i 10), (kSecAlign, MetricValue.i 1),
           (kTotBases, MetricValue.i 100), (kQ30Excl, MetricValue.i 50),
           (kMappedR1, MetricValue.i 30), (kMappedR2, MetricValue.i 20)]
          = .ok [(kDup, MetricValue.i 0), (kDupMate, MetricValue.i 0),
           (kUniq, MetricValue.s "NA"), (kMapped, MetricValue.i 5),
           (kTotAlign, MetricValue.i 10), (kSecAlign, MetricValue.i 1),
           (kTotBases, MetricValue.i 100), (kQ30Excl, MetricValue.i 50),
           (kMappedR1, MetricValue.i 30), (kMappedR2, MetricValue.i 20)] := by decide
      have s3 : fixUniqNA
          [(kDup, MetricValue.i 0), (kDupMate, MetricValue.i 0),
           (kUniq, MetricValue.s "NA"), (kMapped, MetricValue.i 5),
           (kTotAlign, MetricValue.i 10), (kSecAlign, MetricValue.i 1),
           (kTotBases, MetricValue.i 100), (kQ30Excl, MetricValue.i 50),
           (kMappedR1, MetricValue.i 30), (kMappedR2, MetricValue.i 20)]
          = .ok [(kDup, MetricValue.i 0), (kDupMate, MetricValue.i 0),
           (kUniq, MetricValue.i 5), (kMapped, MetricValue.i 5),
           (kTotAlign, MetricValue.i 10), (kSecAlign, MetricValue.i 1),
           (kTotBases, MetricValue.i 100), (kQ30Excl, MetricValue.i 50),
           (kMappedR1, MetricValue.i 30), (kMappedR2, MetricValue.i 20)] := by decide
      have s4 : addSecPct
          [(kDup, MetricValue.i 0), (kDupMate, MetricValue.i 0),
           (kUniq, MetricValue.i 5), (kMapped, MetricValue.i 5),
           (kTotAlign, MetricValue.i 10), (kSecAlign, MetricValue.i 1),
           (kTotBases, MetricValue.i 100), (kQ30Excl, MetricValue.i 50),
           (kMappedR1, MetricValue.i 30), (kMappedR2, MetricValue.i 20)]
          = .ok [(kDup, MetricValue.i 0), (kDupMate, MetricValue.i 0),
           (kUniq, MetricValue.i 5), (kMapped, MetricValue.i 5),
           (kTotAlign, MetricValue.i 10), (kSecAlign, MetricValue.i 1),
           (kTotBases, MetricValue.i 100), (kQ30Excl, MetricValue.i 50),
           (kMappedR1, MetricValue.i 30), (kMappedR2, MetricValue.i 20),
           (kSecPct, MetricValue.f 10)] := by
        simp [addSecPct, dictGet, dictInsert, pyGtZero, pyDivTimes100, mvToRat,
          kDup, kDupMate, kUniq, kMapped, kTotAlign, kSecAlign, kSecPct,
          kTotBases, kQ30Excl, kMappedR1, kMappedR2]
        norm_num
      have s5 : addBasePcts
          [(kDup, MetricValue.i 0), (kDupMate, MetricValue.i 0),
           (kUniq, MetricValue.i 5), (kMapped, MetricValue.i 5),
           (kTotAlign, MetricValue.i 10), (kSecAlign, MetricValue.i 1),
           (kTotBases, MetricValue.i 100), (kQ30Excl, MetricValue.i 50),
           (kMappedR1, MetricValue.i 30), (kMappedR2, MetricValue.i 20),
           (kSecPct, MetricValue.f 10)]
          = .ok [(kDup, MetricValue.i 0), (kDupMate, MetricValue.i 0),
           (kUniq, MetricValue.i 5), (kMapped, MetricValue.i 5),
           (kTotAlign, MetricValue.i 10), (kSecAlign, MetricValue.i 1),
           (kTotBases, MetricValue.i 100), (kQ30Excl, MetricValue.i 50),
           (kMappedR1, MetricValue.i 30), (kMappedR2, MetricValue.i 20),
           (kSecPct, MetricValue.f 10), (kQ30Excl ++ " pct", MetricValue.f 50),
           (kMappedR1 ++ " pct", MetricValue.f 30),
           (kMappedR2 ++ " pct", MetricValue.f 20)] := by
        simp [addBasePcts, dictGet, dictInsert, pyGtZero, pyDivTimes100, mvToRat,
          kDup, kDupMate, kUniq, kMapped, kTotAlign, kSecAlign, kSecPct,
          kTotBases, kQ30Excl, kMappedR1, kMappedR2]
      unfold fixupRecord
      rw [s1]
      simp only [except_ok_bind]
      rw [s2]
      simp only [except_ok_bind]
      rw [s3]
      simp only [except_ok_bind]
      rw [s4]
      simp only [except_ok_bind]
      exact s5)

theorem except_error_bind {β γ : Type} (e : String) (f : β → Except String γ) :
    (Except.error e >>= f : Except String γ) = .error e := rfl

/-- C8 counterexample: a document whose read group `RG7` lacks the expected
`Number of duplicate marked reads` metric makes parsing fail, but the error
value is exactly the missing metric name and does not mention the entity
`RG7`, so the error does not identify the entity as the claim requires. -/
theorem C8_error_does_not_name_entity_counterexample :
    parse_mapping_metrics_file
        ["TUMOR MAPPING/ALIGNING PER RG,RG7,Total reads in RG,100"]
      = .error "Number of duplicate marked reads"
    ∧ ¬ ("RG7".toList <:+: "Number of duplicate marked reads".toList) := by
  refine ⟨by decide, by decide⟩

theorem fixDupNA_missing (d : Record) (h : dictGet d kDup = none) :
    fixDupNA d = .error kDup := by
  unfold fixDupNA
  rw [h]

theorem fixDupMateNA_missing (d : Record) (h : dictGet d kDupMate = none) :
    fixDupMateNA d = .error kDupMate := by
  unfold fixDupMateNA
  rw [h]

theorem fixUniqNA_missing (d : Record) (h : dictGet d kUniq = none) :
    fixUniqNA d = .error kUniq := by
  unfold fixUniqNA
  rw [h]

theorem fixUniqNA_missing_mapped (d : Record) (v : MetricValue)
    (hv : dictGet d kUniq = some v) (hna : pyEq v (MetricValue.s "NA") = true)
    (hm : dictGet d kMapped = none) : fixUniqNA d = .error kMapped := by
  unfold fixUniqNA
  split
  · rename_i heq
    rw [hv] at heq
    exact absurd heq (by simp)
  · rename_i v2 heq
    rw [hv] at heq
    injection heq with heq
    subst heq
    rw [if_pos hna, hm]

theorem addSecPct_missing_total (d : Record) (h : dictGet d kTotAlign = none) :
    addSecPct d = .error kTotAlign := by
  unfold addSecPct
  rw [h]

theorem addSecPct_missing_sec (d : Record) (t : MetricValue)
    (ht : dictGet d kTotAlign = some t) (hgt : pyGtZero t = some true)
    (hs : dictGet d kSecAlign = none) : addSecPct d = .error kSecAlign := by
  unfold addSecPct
  split
  · rename_i heq
    rw [ht] at heq
    exact absurd heq (by simp)
  · rename_i t2 heq
    rw [ht] at heq
    injection heq with heq
    subst heq
    split
    · rename_i h
      rw [hgt] at h
      exact absurd h (by simp)
    · rename_i h
      rw [hgt] at h
      injection h with h
      exact absurd h (by simp)
    · rw [hs]

theorem addBasePcts_missing_total (d : Record) (h : dictGet d kTotBases = none) :
    addBasePcts d = .error kTotBases := by
  unfold addBasePcts
  rw [h]

theorem addBasePcts_missing_q30 (d : Record) (t : MetricValue)
    (ht : dictGet d kTotBases = some t) (hgt : pyGtZero t = some true)
    (hq : dictGet d kQ30Excl = none) : addBasePcts d = .error kQ30Excl := by
  unfold addBasePcts
  split
  · rename_i heq
    rw [ht] at heq
    exact absurd heq (by simp)
  · rename_i t2 heq
    rw [ht] at heq
    injection heq with heq
    subst heq
    split
    · rename_i h
      rw [hgt] at h
      exact absurd h (by simp)
    · rename_i h
      rw [hgt] at h
      injection h with h
      exact absurd h (by simp)
    · split
      · rfl
      · rename_i v1 h
        rw [hq] at h
        exact absurd h (by simp)

theorem addBasePcts_missing_r1 (d : Record) (t v1 : MetricValue) (q1 : Rat)
    (ht : dictGet d kTotBases = some t) (hgt : pyGtZero t = some true)
    (hq30 : dictGet d kQ30Excl = some v1) (hq1 : pyDivTimes100 v1 t = some q1)
    (hr1 : dictGet d kMappedR1 = none) : addBasePcts d = .error kMappedR1 := by
  unfold addBasePcts
  split
  · rename_i heq
    rw [ht] at heq
    exact absurd heq (by simp)
  · rename_i t2 heq
    rw [ht] at heq
    injection heq with heq
    subst heq
    split
    · rename_i h
      rw [hgt] at h
      exact absurd h (by simp)
    · rename_i h
      rw [hgt] at h
      injection h with h
      exact absurd h (by simp)
    · split
      · rename_i h
        rw [hq30] at h
        exact absurd h (by simp)
      · rename_i v1x h
        rw [hq30] at h
        injection h with h
        subst h
        split
        · rename_i h
          rw [hq1] at h
          exact absurd h (by simp)
        · rename_i q1x h
          rw [hq1] at h
          injection h with h
          subst h
          rw [dictGet_dictInsert_ne d (kQ30Excl ++ " pct") kMappedR1
            (MetricValue.f q1) (by decide), hr1]

theorem addBasePcts_missing_r2 (d : Record) (t v1 v2 : MetricValue) (q1 q2 : Rat)
    (ht : dictGet d kTotBases = some t) (hgt : pyGtZero t = some true)
    (hq30 : dictGet d kQ30Excl = some v1) (hq1 : pyDivTimes100 v1 t = some q1)
    (hr1 : dictGet d kMappedR1 = some v2) (hq2 : pyDivTimes100 v2 t = some q2)
    (hr2 : dictGet d kMappedR2 = none) : addBasePcts d = .error kMappedR2 := by
  unfold addBasePcts
  split
  · rename_i heq
    rw [ht] at heq
    exact absurd heq (by simp)
  · rename_i t2 heq
    rw [ht] at heq
    injection heq with heq
    subst heq
    split
    · rename_i h
      rw [hgt] at h
      exact absurd h (by simp)
    · rename_i h
      rw [hgt] at h
      injection h with h
      exact absurd h (by simp)
    · split
      · rename_i h
        rw [hq30] at h
        exact absurd h (by simp)
      · rename_i v1x h
        rw [hq30] at h
        injection h with h
        subst h
        split
        · rename_i h
          rw [hq1] at h
          exact absurd h (by simp)
        · rename_i q1x h
          rw [hq1] at h
          injection h with h
          subst h
          split
          · rename_i h
            rw [dictGet_dictInsert_ne d (kQ30Excl ++ " pct") kMappedR1
              (MetricValue.f q1) (by decide), hr1] at h
            exact absurd h (by simp)
          · rename_i v2x h
            rw [dictGet_dictInsert_ne d (kQ30Excl ++ " pct") kMappedR1
              (MetricValue.f q1) (by decide), hr1] at h
            injection h with h
            subst h
            split
            · rename_i h
              rw [hq2] at h
              exact absurd h (by simp)
            · rename_i q2x h
              rw [hq2] at h
              injection h with h
              subst h
              rw [dictGet_dictInsert_ne _ (kMappedR1 ++ " pct") kMappedR2
                (MetricValue.f q2) (by decide),
                dictGet_dictInsert_ne d (kQ30Excl ++ " pct") kMappedR2
                (MetricValue.f q1) (by decide), hr2]

/-- C8 (amended): whenever the post-parse fixup block reaches the access of
one of its expected base metrics and the record lacks that metric, the
fixups — and with them the parsing of the whole document — fail with a
fatal error naming exactly the missing metric; the error does not name the
entity, and no partial result is produced for the document. All ten
base-metric accesses of lines 336-352 are covered, each under the
condition that execution reaches it (earlier fixup statements succeeded
and the guarding branch was taken); the two closing conjuncts run whole
documents into such errors. -/
theorem C8_missing_metric_fatal :
    (∀ d : Record, dictGet d kDup = none → fixupRecord d = .error kDup)
    ∧ (∀ d d1 : Record, fixDupNA d = .ok d1 →
        dictGet d kDupMate = none → fixupRecord d = .error kDupMate)
    ∧ (∀ d d1 d2 : Record, fixDupNA d = .ok d1 → fixDupMateNA d1 = .ok d2 →
        dictGet d kUniq = none → fixupRecord d = .error kUniq)
    ∧ (∀ d d1 d2 : Record, ∀ v : MetricValue,
        fixDupNA d = .ok d1 → fixDupMateNA d1 = .ok d2 →
        dictGet d kUniq = some v → pyEq v (MetricValue.s "NA") = true →
        dictGet d kMapped = none → fixupRecord d = .error kMapped)
    ∧ (∀ d d1 d2 d3 : Record,
        fixDupNA d = .ok d1 → fixDupMateNA d1 = .ok d2 → fixUniqNA d2 = .ok d3 →
        dictGet d kTotAlign = none → fixupRecord d = .error kTotAlign)
    ∧ (∀ d d1 d2 d3 : Record, ∀ t : MetricValue,
        fixDupNA d = .ok d1 → fixDupMateNA d1 = .ok d2 → fixUniqNA d2 = .ok d3 →
        dictGet d kTotAlign = some t → pyGtZero t = some true →
        dictGet d kSecAlign = none → fixupRecord d = .error kSecAlign)
    ∧ (∀ d d1 d2 d3 d4 : Record,
        fixDupNA d = .ok d1 → fixDupMateNA d1 = .ok d2 → fixUniqNA d2 = .ok d3 →
        addSecPct d3 = .ok d4 →
        dictGet d kTotBases = none → fixupRecord d = .error kTotBases)
    ∧ (∀ d d1 d2 d3 d4 : Record, ∀ t : MetricValue,
        fixDupNA d = .ok d1 → fixDupMateNA d1 = .ok d2 → fixUniqNA d2 = .ok d3 →
        addSecPct d3 = .ok d4 →
        dictGet d kTotBases = some t → pyGtZero t = some true →
        dictGet d kQ30Excl = none → fixupRecord d = .error kQ30Excl)
    ∧ (∀ d d1 d2 d3 d4 : Record, ∀ t v1 : MetricValue, ∀ q1 : Rat,
        fixDupNA d = .ok d1 → fixDupMateNA d1 = .ok d2 → fixUniqNA d2 = .ok d3 →
        addSecPct d3 = .ok d4 →
        dictGet d kTotBases = some t → pyGtZero t = some true →
        dictGet d kQ30Excl = some v1 → pyDivTimes100 v1 t = some q1 →
        dictGet d kMappedR1 = none → fixupRecord d = .error kMappedR1)
    ∧ (∀ d d1 d2 d3 d4 : Record, ∀ t v1 v2 : MetricValue, ∀ q1 q2 : Rat,
        fixDupNA d = .ok d1 → fixDupMateNA d1 = .ok d2 → fixUniqNA d2 = .ok d3 →
        addSecPct d3 = .ok d4 →
        dictGet d kTotBases = some t → pyGtZero t = some true →
        dictGet d kQ30Excl = some v1 → pyDivTimes100 v1 t = some q1 →
        dictGet d kMappedR1 = some v2 → pyDivTimes100 v2 t = some q2 →
        dictGet d kMappedR2 = none → fixupRecord d = .error kMappedR2)
    ∧ parse_mapping_metrics_file
        ["TUMOR MAPPING/ALIGNING PER RG,RG7,Total reads in RG,100"]
      = .error kDup
    ∧ parse_mapping_metrics_file
        ["TUMOR MAPPING/ALIGNING PER RG,RG7,Number of duplicate marked reads,5",
         "TUMOR MAPPING/ALIGNING PER RG,RG7,Number of duplicate marked and mate reads removed,0",
         "TUMOR MAPPING/ALIGNING PER RG,RG7,Number of unique reads (excl. duplicate marked reads),7",
         "TUMOR MAPPING/ALIGNING PER RG,RG7,Total alignments,0"]
      = .error kTotBases := by
  refine ⟨?_, ?_, ?_, ?_, ?_, ?_, ?_, ?_, ?_, ?_, by decide, by decide⟩
  · intro d h
    unfold fixupRecord
    rw [fixDupNA_missing d h]
    simp only [except_error_bind]
  · intro d d1 h1 hm
    unfold fixupRecord
    rw [h1]
    simp only [except_ok_bind]
    rw [fixDupMateNA_missing d1
      (((fixDupNA_ok d d1 h1).1 kDupMate (by decide)).trans hm)]
    simp only [except_error_bind]
  · intro d d1 d2 h1 h2 hm
    have p1 := (fixDupNA_ok d d1 h1).1
    have p2 := (fixDupMateNA_ok d1 d2 h2).1
    unfold fixupRecord
    rw [h1]
    simp only [except_ok_bind]
    rw [h2]
    simp only [except_ok_bind]
    rw [fixUniqNA_missing d2
      ((p2 kUniq (by decide)).trans ((p1 kUniq (by decide)).trans hm))]
    simp only [except_error_bind]
  · intro d d1 d2 v h1 h2 hv hna hm
    have p1 := (fixDupNA_ok d d1 h1).1
    have p2 := (fixDupMateNA_ok d1 d2 h2).1
    unfold fixupRecord
    rw [h1]
    simp only [except_ok_bind]
    rw [h2]
    simp only [except_ok_bind]
    rw [fixUniqNA_missing_mapped d2 v
      ((p2 kUniq (by decide)).trans ((p1 kUniq (by decide)).trans hv)) hna
      ((p2 kMapped (by decide)).trans ((p1 kMapped (by decide)).trans hm))]
    simp only [except_error_bind]
  · intro d d1 d2 d3 h1 h2 h3 hm
    have p1 := (fixDupNA_ok d d1 h1).1
    have p2 := (fixDupMateNA_ok d1 d2 h2).1
    have p3 := (fixUniqNA_ok d2 d3 h3).1
    unfold fixupRecord
    rw [h1]
    simp only [except_ok_bind]
    rw [h2]
    simp only [except_ok_bind]
    rw [h3]
    simp only [except_ok_bind]
    rw [addSecPct_missing_total d3
      ((p3 kTotAlign (by decide)).trans ((p2 kTotAlign (by decide)).trans
        ((p1 kTotAlign (by decide)).trans hm)))]
    simp only [except_error_bind]
  · intro d d1 d2 d3 t h1 h2 h3 ht hgt hs
    have p1 := (fixDupNA_ok d d1 h1).1
    have p2 := (fixDupMateNA_ok d1 d2 h2).1
    have p3 := (fixUniqNA_ok d2 d3 h3).1
    unfold fixupRecord
    rw [h1]
    simp only [except_ok_bind]
    rw [h2]
    simp only [except_ok_bind]
    rw [h3]
    simp only [except_ok_bind]
    rw [addSecPct_missing_sec d3 t
      ((p3 kTotAlign (by decide)).trans ((p2 kTotAlign (by decide)).trans
        ((p1 kTotAlign (by decide)).trans ht))) hgt
      ((p3 kSecAlign (by decide)).trans ((p2 kSecAlign (by decide)).trans
        ((p1 kSecAlign (by decide)).trans hs)))]
    simp only [except_error_bind]
  · intro d d1 d2 d3 d4 h1 h2 h3 h4 hm
    have p1 := (fixDupNA_ok d d1 h1).1
    have p2 := (fixDupMateNA_ok d1 d2 h2).1
    have p3 := (fixUniqNA_ok d2 d3 h3).1
    have p4 := (addSecPct_ok d3 d4 h4).1
    unfold fixupRecord
    rw [h1]
    simp only [except_ok_bind]
    rw [h2]
    simp only [except_ok_bind]
    rw [h3]
    simp only [except_ok_bind]
    rw [h4]
    simp only [except_ok_bind]
    exact addBasePcts_missing_total d4
      ((p4 kTotBases (by decide)).trans ((p3 kTotBases (by decide)).trans
        ((p2 kTotBases (by decide)).trans ((p1 kTotBases (by decide)).trans hm))))
  · intro d d1 d2 d3 d4 t h1 h2 h3 h4 ht hgt hq
    have p1 := (fixDupNA_ok d d1 h1).1
    have p2 := (fixDupMateNA_ok d1 d2 h2).1
    have p3 := (fixUniqNA_ok d2 d3 h3).1
    have p4 := (addSecPct_ok d3 d4 h4).1
    unfold fixupRecord
    rw [h1]
    simp only [except_ok_bind]
    rw [h2]
    simp only [except_ok_bind]
    rw [h3]
    simp only [except_ok_bind]
    rw [h4]
    simp only [except_ok_bind]
    exact addBasePcts_missing_q30 d4 t
      ((p4 kTotBases (by decide)).trans ((p3 kTotBases (by decide)).trans
        ((p2 kTotBases (by decide)).trans ((p1 kTotBases (by decide)).trans ht)))) hgt
      ((p4 kQ30Excl (by decide)).trans ((p3 kQ30Excl (by decide)).trans
        ((p2 kQ30Excl (by decide)).trans ((p1 kQ30Excl (by decide)).trans hq))))
  · intro d d1 d2 d3 d4 t v1 q1 h1 h2 h3 h4 ht hgt hq30 hq1 hr1
    have p1 := (fixDupNA_ok d d1 h1).1
    have p2 := (fixDupMateNA_ok d1 d2 h2).1
    have p3 := (fixUniqNA_ok d2 d3 h3).1
    have p4 := (addSecPct_ok d3 d4 h4).1
    unfold fixupRecord
    rw [h1]
    simp only [except_ok_bind]
    rw [h2]
    simp only [except_ok_bind]
    rw [h3]
    simp only [except_ok_bind]
    rw [h4]
    simp only [except_ok_bind]
    exact addBasePcts_missing_r1 d4 t v1 q1
      ((p4 kTotBases (by decide)).trans ((p3 kTotBases (by decide)).trans
        ((p2 kTotBases (by decide)).trans ((p1 kTotBases (by decide)).trans ht)))) hgt
      ((p4 kQ30Excl (by decide)).trans ((p3 kQ30Excl (by decide)).trans
        ((p2 kQ30Excl (by decide)).trans ((p1 kQ30Excl (by decide)).trans hq30)))) hq1
      ((p4 kMappedR1 (by decide)).trans ((p3 kMappedR1 (by decide)).trans
        ((p2 kMappedR1 (by decide)).trans ((p1 kMappedR1 (by decide)).trans hr1))))
  · intro d d1 d2 d3 d4 t v1 v2 q1 q2 h1 h2 h3 h4 ht hgt hq30 hq1 hr1 hq2 hr2
    have p1 := (fixDupNA_ok d d1 h1).1
    have p2 := (fixDupMateNA_ok d1 d2 h2).1
    have p3 := (fixUniqNA_ok d2 d3 h3).1
    have p4 := (addSecPct_ok d3 d4 h4).1
    unfold fixupRecord
    rw [h1]
    simp only [except_ok_bind]
    rw [h2]
    simp only [except_ok_bind]
    rw [h3]
    simp only [except_ok_bind]
    rw [h4]
    simp only [except_ok_bind]
    exact addBasePcts_missing_r2 d4 t v1 v2 q1 q2
      ((p4 kTotBases (by decide)).trans ((p3 kTotBases (by decide)).trans
        ((p2 kTotBases (by decide)).trans ((p1 kTotBases (by decide)).trans ht)))) hgt
      ((p4 kQ30Excl (by decide)).trans ((p3 kQ30Excl (by decide)).trans
        ((p2 kQ30Excl (by decide)).trans ((p1 kQ30Excl (by decide)).trans hq30)))) hq1
      ((p4 kMappedR1 (by decide)).trans ((p3 kMappedR1 (by decide)).trans
        ((p2 kMappedR1 (by decide)).trans ((p1 kMappedR1 (by decide)).trans hr1)))) hq2
      ((p4 kMappedR2 (by decide)).trans ((p3 kMappedR2 (by decide)).trans
        ((p2 kMappedR2 (by decide)).trans ((p1 kMappedR2 (by decide)).trans hr2))))

theorem C8_missing_metric_fatal_witness :
    fixupRecord [(kDup, MetricValue.i 1), (kDupMate, MetricValue.i 1),
      (kUniq, MetricValue.i 1), (kTotAlign, MetricValue.i 0)]
      = .error kTotBases :=
  C8_missing_metric_fatal.2.2.2.2.2.2.1
    [(kDup, MetricValue.i 1), (kDupMate, MetricValue.i 1),
     (kUniq, MetricValue.i 1), (kTotAlign, MetricValue.i 0)]
    [(kDup, MetricValue.i 1), (kDupMate, MetricValue.i 1),
     (kUniq, MetricValue.i 1), (kTotAlign, MetricValue.i 0)]
    [(kDup, MetricValue.i 1), (kDupMate, MetricValue.i 1),
     (kUniq, MetricValue.i 1), (kTotAlign, MetricValue.i 0)]
    [(kDup, MetricValue.i 1), (kDupMate, MetricValue.i 1),
     (kUniq, MetricValue.i 1), (kTotAlign, MetricValue.i 0)]
    [(kDup, MetricValue.i 1), (kDupMate, MetricValue.i 1),
     (kUniq, MetricValue.i 1), (kTotAlign, MetricValue.i 0)]
    (by decide) (by decide) (by decide) (by decide) (by decide)

theorem dropWhile_all_false {p : Char → Bool} :
    ∀ cs : List Char, (∀ c ∈ cs, p c = false) → cs.dropWhile p = cs := by
  intro cs
  induction cs with
  | nil => intro _; rfl
  | cons c rest _ =>
    intro h
    rw [List.dropWhile_cons_of_neg]
    simp [h c (by simp)]

theorem dropWhitespace_id (cs : List Char) (h : ∀ c ∈ cs, isSpaceChar c = false) :
    dropWhitespace cs = cs := by
  unfold dropWhitespace
  rw [dropWhile_all_false cs h]
  rw [dropWhile_all_false cs.reverse (fun c hc => h c (List.mem_reverse.mp hc))]
  exact List.reverse_reverse cs

theorem splitFirst_none {p : Char → Bool} :
    ∀ cs : List Char, (∀ c ∈ cs, p c = false) → splitFirst cs p = (cs, none) := by
  intro cs
  induction cs with
  | nil => intro _; rfl
  | cons c rest ih =>
    intro h
    unfold splitFirst
    rw [if_neg (by simp [h c (by simp)])]
    rw [ih (fun c' hc' => h c' (by simp [hc']))]

theorem splitFirst_found {p : Char → Bool} (x : Char) (hx : p x = true) :
    ∀ ip fp : List Char, (∀ c ∈ ip, p c = false) →
      splitFirst (ip ++ x :: fp) p = (ip, some fp) := by
  intro ip
  induction ip with
  | nil =>
    intro fp _
    simp only [List.nil_append]
    unfold splitFirst
    rw [if_pos hx]
  | cons c rest ih =>
    intro fp h
    have htail : splitFirst (rest ++ x :: fp) p = (rest, some fp) :=
      ih fp (fun c' hc' => h c' (by simp [hc']))
    simp only [List.cons_append]
    simp [splitFirst, h c (by simp), htail]

theorem pyFloatCore_plain (c : Char) (rest : List Char)
    (hplus : c ≠ '+') (hminus : c ≠ '-')
    (hnoE : ∀ x ∈ c :: rest, (decide (x = 'e') || decide (x = 'E')) = false) :
    pyFloatCore (c :: rest) = (parseDecimalCore (c :: rest)).map (fun m => (1 : Rat) * m) := by
  simp only [pyFloatCore]
  rw [if_neg hplus, if_neg hminus]
  simp [splitFirst_none _ hnoE]

theorem parseDecimalCore_dotted (ip fp : List Char)
    (hip : ip.all Char.isDigit = true) (hfp : fp.all Char.isDigit = true)
    (hne : ip ++ fp ≠ [])
    (hnodot : ∀ c ∈ ip, (decide (c = '.')) = false) :
    parseDecimalCore (ip ++ '.' :: fp)
      = some ((decDigitsVal ip : Rat) + (decDigitsVal fp : Rat) / (10 : Rat) ^ fp.length) := by
  unfold parseDecimalCore
  rw [splitFirst_found '.' (by decide) ip fp hnodot]
  have hor : ip ≠ [] ∨ fp ≠ [] := by
    rcases ip with _ | ⟨c, ip2⟩
    · right
      simpa using hne
    · left
      simp
  rcases hor with h | h <;> simp [h, hip, hfp]

theorem digit_not_space (c : Char) (h : c.isDigit = true) : isSpaceChar c = false := by
  by_contra hs
  have hs2 : isSpaceChar c = true := by
    revert hs
    cases isSpaceChar c <;> simp
  unfold isSpaceChar at hs2
  rcases Bool.or_eq_true_iff.mp hs2 with hs3 | h6
  rcases Bool.or_eq_true_iff.mp hs3 with hs4 | h5
  rcases Bool.or_eq_true_iff.mp hs4 with hs5 | h4
  rcases Bool.or_eq_true_iff.mp hs5 with hs6 | h3
  rcases Bool.or_eq_true_iff.mp hs6 with h1 | h2
  · rw [show c = ' ' from of_decide_eq_true h1] at h
    exact absurd h (by decide)
  · rw [show c = '\t' from of_decide_eq_true h2] at h
    exact absurd h (by decide)
  · rw [show c = '\n' from of_decide_eq_true h3] at h
    exact absurd h (by decide)
  · rw [show c = '\r' from of_decide_eq_true h4] at h
    exact absurd h (by decide)
  · rw [show c = '\x0b' from of_decide_eq_true h5] at h
    exact absurd h (by decide)
  · rw [show c = '\x0c' from of_decide_eq_true h6] at h
    exact absurd h (by decide)

theorem digit_ne (c x : Char) (h : c.isDigit = true) (hx : x.isDigit = false) : c ≠ x := by
  intro hEq
  rw [hEq, hx] at h
  exact absurd h (by simp)

/-- C6: the VALUE coercion tries `int`, then `float`, else keeps the raw
string: a nonempty all-digit string coerces to the integer with that
decimal positional reading, an unsigned decimal string containing a dot
coerces to the corresponding rational (floats are modelled as exact
rationals), and the literal `NA` marker survives as the string `NA` — it
is never turned into zero by the parser. -/
theorem C6_value_coercion (s : String) :
    (s.toList ≠ [] → s.toList.all Char.isDigit = true →
      coerceValue s = .i ((decDigitsVal s.toList : Int)))
    ∧ (∀ ip fp : List Char, s.toList = ip ++ '.' :: fp →
        ip.all Char.isDigit = true → fp.all Char.isDigit = true → ip ++ fp ≠ [] →
        coerceValue s = .f ((decDigitsVal ip : Rat)
          + (decDigitsVal fp : Rat) / (10 : Rat) ^ fp.length))
    ∧ coerceValue "NA" = .s "NA" := by
  refine ⟨?_, ?_, by decide⟩
  · intro hne hdig
    have hdig2 : ∀ c ∈ s.toList, c.isDigit = true := fun c hc =>
      List.all_eq_true.mp hdig c hc
    have hdrop : dropWhitespace s.toList = s.toList :=
      dropWhitespace_id _ (fun c hc => digit_not_space c (hdig2 c hc))
    have hint : pyParseInt s = some ((decDigitsVal s.toList : Int)) := by
      unfold pyParseInt
      rw [hdrop]
      cases hcs : s.toList with
      | nil => exact absurd hcs hne
      | cons c rest =>
        have hc : c.isDigit = true := hdig2 c (by rw [hcs]; simp)
        simp only [pyIntCore]
        rw [if_neg (digit_ne c '+' hc (by decide)),
          if_neg (digit_ne c '-' hc (by decide))]
        rw [if_pos (by rw [← hcs]; exact hdig)]
    unfold coerceValue
    rw [hint]
  · intro ip fp hcs hip hfp hne
    have hip2 : ∀ c ∈ ip, c.isDigit = true := fun c hc => List.all_eq_true.mp hip c hc
    have hfp2 : ∀ c ∈ fp, c.isDigit = true := fun c hc => List.all_eq_true.mp hfp c hc
    have hmem : ∀ c ∈ ip ++ '.' :: fp, c.isDigit = true ∨ c = '.' := by
      intro c hc
      rcases List.mem_append.mp hc with hc | hc
      · exact Or.inl (hip2 c hc)
      · rcases List.mem_cons.mp hc with hc | hc
        · exact Or.inr hc
        · exact Or.inl (hfp2 c hc)
    have hdrop : dropWhitespace s.toList = s.toList := by
      apply dropWhitespace_id
      intro c hc
      rw [hcs] at hc
      rcases hmem c hc with h | h
      · exact digit_not_space c h
      · rw [h]
        decide
    have hforbid : ∀ x : Char, x.isDigit = false → x ≠ '.' → ∀ c ∈ ip ++ '.' :: fp, c ≠ x := by
      intro x hx hdot c hc
      rcases hmem c hc with h | h
      · exact digit_ne c x h hx
      · rw [h]
        intro hh
        exact hdot hh.symm
    have hint : pyParseInt s = none := by
      unfold pyParseInt
      rw [hdrop, hcs]
      have hdotfalse : (ip ++ '.' :: fp).all Char.isDigit = false := by
        by_contra hcon
        have : (ip ++ '.' :: fp).all Char.isDigit = true := by
          revert hcon
          cases (ip ++ '.' :: fp).all Char.isDigit <;> simp
        have := List.all_eq_true.mp this '.' (by simp)
        exact absurd this (by decide)
      cases hipc : ip with
      | nil =>
        simp only [List.nil_append]
        simp only [pyIntCore]
        rw [if_neg (by decide : ('.' : Char) ≠ '+'),
          if_neg (by decide : ('.' : Char) ≠ '-')]
        rw [if_neg]
        rw [show ('.' :: fp) = ip ++ '.' :: fp by rw [hipc]; rfl]
        rw [hdotfalse]
        simp
      | cons c ip2 =>
        have hc : c.isDigit = true := hip2 c (by rw [hipc]; simp)
        simp only [List.cons_append]
        simp only [pyIntCore]
        rw [if_neg (digit_ne c '+' hc (by decide)),
          if_neg (digit_ne c '-' hc (by decide))]
        rw [if_neg]
        rw [show (c :: (ip2 ++ '.' :: fp)) = ip ++ '.' :: fp by rw [hipc]; rfl]
        rw [hdotfalse]
        simp
    have hnoE : ∀ x ∈ ip ++ '.' :: fp, (decide (x = 'e') || decide (x = 'E')) = false := by
      intro x hx
      have h1 := hforbid 'e' (by decide) (by decide) x hx
      have h2 := hforbid 'E' (by decide) (by decide) x hx
      simp [h1, h2]
    have hnodot : ∀ c ∈ ip, (decide (c = '.')) = false := by
      intro c hc
      simp [digit_ne c '.' (hip2 c hc) (by decide)]
    have hfloat : pyParseFloat s
        = some ((decDigitsVal ip : Rat)
            + (decDigitsVal fp : Rat) / (10 : Rat) ^ fp.length) := by
      unfold pyParseFloat
      rw [hdrop, hcs]
      have hplain : pyFloatCore (ip ++ '.' :: fp)
          = (parseDecimalCore (ip ++ '.' :: fp)).map (fun m => (1 : Rat) * m) := by
        cases hipc : ip with
        | nil =>
          simp only [List.nil_append]
          apply pyFloatCore_plain
          · decide
          · decide
          · intro x hx
            apply hnoE
            rw [hipc]
            simpa using hx
        | cons c ip2 =>
          have hc : c.isDigit = true := hip2 c (by rw [hipc]; simp)
          simp only [List.cons_append]
          apply pyFloatCore_plain
          · exact digit_ne c '+' hc (by decide)
          · exact digit_ne c '-' hc (by decide)
          · intro x hx
            apply hnoE
            rw [hipc]
            simpa using hx
      rw [hplain, parseDecimalCore_dotted ip fp hip hfp hne hnodot]
      simp
    unfold coerceValue
    rw [hint, hfloat]


theorem C6_value_coercion_witness :
    ((("433637413" : String).toList ≠ [] →
        ("433637413" : String).toList.all Char.isDigit = true →
        coerceValue "433637413" = .i ((decDigitsVal ("433637413" : String).toList : Int)))
      ∧ (∀ ip fp : List Char, ("433637413" : String).toList = ip ++ '.' :: fp →
          ip.all Char.isDigit = true → fp.all Char.isDigit = true → ip ++ fp ≠ [] →
          coerceValue "433637413" = .f ((decDigitsVal ip : Rat)
            + (decDigitsVal fp : Rat) / (10 : Rat) ^ fp.length))
      ∧ coerceValue "NA" = .s "NA")
    ∧ coerceValue "433637413" = .i 433637413 :=
  ⟨C6_value_coercion "433637413",
    ((C6_value_coercion "433637413").1 (by decide) (by decide)).trans (by decide)⟩

theorem dictInsert_keys_cases {β : Type} (d : List (String × β)) (k : String) (v : β) :
    (dictInsert d k v).map Prod.fst = d.map Prod.fst
    ∨ (dictInsert d k v).map Prod.fst = d.map Prod.fst ++ [k] := by
  induction d with
  | nil => right; rfl
  | cons p rest ih =>
    by_cases h : p.1 = k
    · left
      simp [dictInsert, h]
    · rcases ih with ih | ih
      · left
        simp [dictInsert, h, ih]
      · right
        simp [dictInsert, h, ih]

theorem dictInsert_keys_sublist {β : Type} (d : List (String × β)) (k : String) (v : β) :
    ((dictInsert d k v).map Prod.fst).Sublist (d.map Prod.fst ++ [k]) := by
  rcases dictInsert_keys_cases d k v with h | h
  · rw [h]
    exact List.sublist_append_left _ _
  · rw [h]

theorem headersStep_stats_keys (cfg : Config) (ns : List String)
    (acc : List (String × ColumnMeta) × List (String × ColumnMeta))
    (e : MetricDescriptor) :
    ((headersStep cfg ns acc e).1.map Prod.fst).Sublist
      (acc.1.map Prod.fst
        ++ ((if (e.id ++ " pct") ∈ ns then [e.id ++ " pct"] else []) ++ [e.id])) := by
  unfold headersStep
  by_cases h : (e.id ++ " pct") ∈ ns
  · simp only [if_pos h]
    have h1 := dictInsert_keys_sublist (dictInsert acc.1 (e.id ++ " pct") (makePctCol (makeBaseCol e) e))
      e.id (finishCol cfg e (makeBaseCol e))
    have h2 := List.Sublist.append_right
      (dictInsert_keys_sublist acc.1 (e.id ++ " pct") (makePctCol (makeBaseCol e) e)) [e.id]
    simpa [List.append_assoc] using h1.trans h2
  · simp only [if_neg h]
    simpa using dictInsert_keys_sublist acc.1 e.id (finishCol cfg e (makeBaseCol e))

theorem headersStep_bees_keys (cfg : Config) (ns : List String)
    (acc : List (String × ColumnMeta) × List (String × ColumnMeta))
    (e : MetricDescriptor) :
    ((headersStep cfg ns acc e).2.map Prod.fst).Sublist
      (acc.2.map Prod.fst ++ (if e.beeswarm then [e.id] else [])) := by
  unfold headersStep
  by_cases h : e.beeswarm
  · simp only [h, if_true]
    exact dictInsert_keys_sublist acc.2 e.id _
  · simp [h]

theorem fold_stats_keys (cfg : Config) (ns : List String) :
    ∀ (es : List MetricDescriptor)
      (acc : List (String × ColumnMeta) × List (String × ColumnMeta)),
      ((es.foldl (headersStep cfg ns) acc).1.map Prod.fst).Sublist
        (acc.1.map Prod.fst
          ++ (es.map (fun e =>
              (if (e.id ++ " pct") ∈ ns then [e.id ++ " pct"] else []) ++ [e.id])).flatten) := by
  intro es
  induction es with
  | nil => intro acc; simp
  | cons e rest ih =>
    intro acc
    simp only [List.foldl_cons, List.map_cons, List.flatten_cons]
    have h1 := ih (headersStep cfg ns acc e)
    have h3 := List.Sublist.append_right (headersStep_stats_keys cfg ns acc e)
      ((rest.map (fun e =>
        (if (e.id ++ " pct") ∈ ns then [e.id ++ " pct"] else []) ++ [e.id])).flatten)
    have := h1.trans h3
    simpa [List.append_assoc] using this

theorem fold_bees_keys (cfg : Config) (ns : List String) :
    ∀ (es : List MetricDescriptor)
      (acc : List (String × ColumnMeta) × List (String × ColumnMeta)),
      ((es.foldl (headersStep cfg ns) acc).2.map Prod.fst).Sublist
        (acc.2.map Prod.fst
          ++ (es.map (fun e => if e.beeswarm then [e.id] else [])).flatten) := by
  intro es
  induction es with
  | nil => intro acc; simp
  | cons e rest ih =>
    intro acc
    simp only [List.foldl_cons, List.map_cons, List.flatten_cons]
    have h1 := ih (headersStep cfg ns acc e)
    have h3 := List.Sublist.append_right (headersStep_bees_keys cfg ns acc e)
      ((rest.map (fun e => if e.beeswarm then [e.id] else [])).flatten)
    have := h1.trans h3
    simpa [List.append_assoc] using this

theorem headersStep_ext (cfg : Config) (ns ns' : List String)
    (h : ∀ s, s ∈ ns ↔ s ∈ ns')
    (acc : List (String × ColumnMeta) × List (String × ColumnMeta))
    (e : MetricDescriptor) :
    headersStep cfg ns acc e = headersStep cfg ns' acc e := by
  by_cases hmem : (e.id ++ " pct") ∈ ns
  · have hmem' := (h (e.id ++ " pct")).mp hmem
    simp only [headersStep, if_pos hmem, if_pos hmem']
  · have hmem' : (e.id ++ " pct") ∉ ns' := fun hc => hmem ((h (e.id ++ " pct")).mpr hc)
    simp only [headersStep, if_neg hmem, if_neg hmem']

theorem fold_headers_ext (cfg : Config) (ns ns' : List String)
    (h : ∀ s, s ∈ ns ↔ s ∈ ns') :
    ∀ (es : List MetricDescriptor)
      (acc : List (String × ColumnMeta) × List (String × ColumnMeta)),
      es.foldl (headersStep cfg ns) acc = es.foldl (headersStep cfg ns') acc := by
  intro es
  induction es with
  | nil => intro acc; rfl
  | cons e rest ih =>
    intro acc
    simp only [List.foldl_cons]
    rw [headersStep_ext cfg ns ns' h acc e]
    exact ih _

/-- C9: the metadata builder is a pure function of the observed metric-name
set: two name lists with the same membership give identical
(stats-header, beeswarm) outputs, whatever the upstream merge order that
produced them; and the key sequences of both outputs follow the static
catalog order (each is a subsequence of the catalog-ordered candidate key
list). Running the builder twice on the same set trivially yields the same
mappings, as it is deterministic. -/
theorem C9_metadata_builder (cfg : Config) (ns ns' : List String)
    (h : ∀ s, s ∈ ns ↔ s ∈ ns') :
    make_mapping_stats_headers cfg ns = make_mapping_stats_headers cfg ns'
    ∧ ((make_mapping_stats_headers cfg ns).1.map Prod.fst).Sublist
        (statsHeaderKeyOrder ns)
    ∧ ((make_mapping_stats_headers cfg ns).2.map Prod.fst).Sublist
        beeswarmKeyOrder := by
  refine ⟨?_, ?_, ?_⟩
  · unfold make_mapping_stats_headers
    exact fold_headers_ext cfg ns ns' h MAPPING_METRICS ([], [])
  · unfold make_mapping_stats_headers statsHeaderKeyOrder
    simpa using fold_stats_keys cfg ns MAPPING_METRICS ([], [])
  · unfold make_mapping_stats_headers beeswarmKeyOrder
    simpa using fold_bees_keys cfg ns MAPPING_METRICS ([], [])

theorem C9_metadata_builder_witness :
    make_mapping_stats_headers ⟨1, "", "", 1, "", ""⟩ ["Mapped reads pct"]
        = make_mapping_stats_headers ⟨1, "", "", 1, "", ""⟩
          ["Mapped reads pct", "Mapped reads pct"]
    ∧ ((make_mapping_stats_headers ⟨1, "", "", 1, "", ""⟩ ["Mapped reads pct"]).1.map
        Prod.fst).Sublist (statsHeaderKeyOrder ["Mapped reads pct"])
    ∧ ((make_mapping_stats_headers ⟨1, "", "", 1, "", ""⟩ ["Mapped reads pct"]).2.map
        Prod.fst).Sublist beeswarmKeyOrder :=
  C9_metadata_builder ⟨1, "", "", 1, "", ""⟩ ["Mapped reads pct"]
    ["Mapped reads pct", "Mapped reads pct"] (by intro s; simp)

end DragenMapping
